import Mathlib

/-!
# Verification of the PDF DPI converter server (`src/server.js`)

Shallow embedding of the Express/multer/Ghostscript server in `src/server.js`.
The filesystem is an association list from paths to file contents (strings of
bytes); `fs.writeFile` and `fs.unlink` become pure state transformers.  The
external Ghostscript engine and the possibility of a failing
`fs.writeFile` are oracles supplied per conversion attempt.  The
`crypto.randomBytes(16)` calls become a stream of byte lists indexed by the
order in which the server draws random names.  Paths are plain strings and
`path.join(a, b)` is `a ++ "/" ++ b` (the relative-segment case, which is the
only one the server uses; the `GET /output` handler joins from `__dirname`,
which coincides with the process working directory the server is started
from).
-/

/-- A filesystem: association list from path to file content.  A write conses
a fresh binding in front (so it shadows, i.e. overwrites, an older one);
lookup takes the first binding; unlink removes all bindings of the path. -/
def FS : Type := List (String × String)

def fsLookup : FS → String → Option String
  | [], _ => none
  | (q, v) :: rest, p => if p = q then some v else fsLookup rest p

def fsUnlink : FS → String → FS
  | [], _ => []
  | (q, v) :: rest, p => if q = p then fsUnlink rest p else (q, v) :: fsUnlink rest p

/-- `fs.writeFile(p, v)`: the new binding shadows any previous one. -/
def fsWrite (fs : FS) (p v : String) : FS := (p, v) :: fs

/-- Node's `path.join` on two plain relative segments. -/
def pathJoin (a b : String) : String := a ++ "/" ++ b

theorem fsLookup_fsWrite (fs : FS) (p v q : String) :
    fsLookup (fsWrite fs p v) q = if q = p then some v else fsLookup fs q := rfl

theorem fsLookup_fsUnlink (fs : FS) (p q : String) :
    fsLookup (fsUnlink fs p) q = if q = p then none else fsLookup fs q := by
  induction fs with
  | nil => simp [fsUnlink, fsLookup]
  | cons hd tl ih =>
    obtain ⟨a, v⟩ := hd
    by_cases hap : a = p
    · subst hap
      by_cases hqa : q = a
      · subst hqa
        simp [fsUnlink, fsLookup, ih]
      · simp [fsUnlink, fsLookup, hqa, ih]
    · by_cases hqa : q = a
      · subst hqa
        simp [fsUnlink, fsLookup, hap, Ne.symm hap, ih]
      · simp [fsUnlink, fsLookup, hap, hqa, ih]

/-- JavaScript whitespace accepted by `parseInt` (the common characters). -/
def isJsSpace (c : Char) : Bool :=
  c = ' ' || c = '\t' || c = '\n' || c = '\r' || c = '\x0b' || c = '\x0c'

/-- Value of a character as a digit, if it is a digit below `radix`. -/
def digitVal (radix : Nat) (c : Char) : Option Nat :=
  let v : Option Nat :=
    if '0' ≤ c ∧ c ≤ '9' then some (c.toNat - 48)
    else if 'a' ≤ c ∧ c ≤ 'z' then some (c.toNat - 87)
    else if 'A' ≤ c ∧ c ≤ 'Z' then some (c.toNat - 55)
    else none
  match v with
  | some d => if d < radix then some d else none
  | none => none

def parseDigitsAux (radix : Nat) : List Char → Nat → Nat
  | [], acc => acc
  | c :: cs, acc =>
    match digitVal radix c with
    | some d => parseDigitsAux radix cs (acc * radix + d)
    | none => acc

def hasLeadingDigit (radix : Nat) : List Char → Bool
  | [] => false
  | c :: _ => (digitVal radix c).isSome

/-- JavaScript `parseInt(s)` with the radix argument omitted: skip leading
whitespace, read an optional sign, detect a `0x`/`0X` hex prefix (radix 16,
else 10), then take the longest prefix of digits; `none` models `NaN`
(no digits at all, or a missing field, where `req.body.dpi` is `undefined`). -/
def parseIntJS : Option String → Option Int
  | none => none
  | some s =>
    let cs := s.data.dropWhile isJsSpace
    let (sign, cs2) : Int × List Char :=
      match cs with
      | '-' :: r => (-1, r)
      | '+' :: r => (1, r)
      | _ => (1, cs)
    let (radix, cs3) : Nat × List Char :=
      match cs2 with
      | '0' :: 'x' :: r => (16, r)
      | '0' :: 'X' :: r => (16, r)
      | _ => (10, cs2)
    if hasLeadingDigit radix cs3 then some (sign * (parseDigitsAux radix cs3 0 : Nat))
    else none

/-- `const targetDPI = parseInt(req.body.dpi) || 300` from `src/server.js:149`.
`||` falls through to 300 exactly when `parseInt` produced a falsy value:
`NaN` (modelled `none`) or `0` (also `-0`, which is `0` here). -/
def effectiveDPI (dpi : Option String) : Int :=
  match parseIntJS dpi with
  | none => 300
  | some n => if n = 0 then 300 else n

/-- One lowercase hexadecimal digit, as produced by Node's
`Buffer.toString("hex")`. -/
def hexDigit (n : Fin 16) : Char :=
  if n.val < 10 then Char.ofNat (48 + n.val) else Char.ofNat (87 + n.val)

def hexEncodeList : List (Fin 256) → List Char
  | [] => []
  | b :: bs =>
    hexDigit ⟨b.val / 16, by omega⟩ :: hexDigit ⟨b.val % 16, by omega⟩ :: hexEncodeList bs

/-- `buf.toString("hex")` for a byte buffer: two lowercase hex digits per
byte. -/
def hexEncode (l : List (Fin 256)) : String := ⟨hexEncodeList l⟩

/-- The characters that may appear in a hex token. -/
def hexChars : List Char := "0123456789abcdef".data

theorem hexDigit_mem_hexChars : ∀ n : Fin 16, hexDigit n ∈ hexChars := by decide

theorem hexDigit_injective : ∀ n m : Fin 16, hexDigit n = hexDigit m → n = m := by decide

theorem hexEncodeList_length : ∀ l : List (Fin 256), (hexEncodeList l).length = 2 * l.length
  | [] => rfl
  | b :: bs => by
    simp [hexEncodeList, hexEncodeList_length bs]
    omega

theorem hexEncodeList_mem : ∀ l : List (Fin 256), ∀ c ∈ hexEncodeList l, c ∈ hexChars
  | [], _, h => by simp [hexEncodeList] at h
  | b :: bs, c, h => by
    simp only [hexEncodeList, List.mem_cons] at h
    rcases h with h | h | h
    · exact h ▸ hexDigit_mem_hexChars _
    · exact h ▸ hexDigit_mem_hexChars _
    · exact hexEncodeList_mem bs c h

theorem hexEncodeList_injective :
    ∀ l m : List (Fin 256), hexEncodeList l = hexEncodeList m → l = m
  | [], [], _ => rfl
  | [], _ :: _, h => by simp [hexEncodeList] at h
  | _ :: _, [], h => by simp [hexEncodeList] at h
  | a :: l, b :: m, h => by
    simp only [hexEncodeList, List.cons.injEq] at h
    obtain ⟨h1, h2, h3⟩ := h
    have e1 := hexDigit_injective _ _ h1
    have e2 := hexDigit_injective _ _ h2
    have hv : a.val = b.val := by
      have q1 : a.val / 16 = b.val / 16 := congrArg Fin.val e1
      have q2 : a.val % 16 = b.val % 16 := congrArg Fin.val e2
      omega
    have : a = b := Fin.ext hv
    rw [this, hexEncodeList_injective l m h3]

theorem hexEncode_injective (l m : List (Fin 256)) (h : hexEncode l = hexEncode m) : l = m := by
  apply hexEncodeList_injective
  have := congrArg String.data h
  simpa [hexEncode] using this

/-! ## The DPI override directive (`psContent`, `src/server.js:53-102`)

The JavaScript template literal is a concatenation of four fixed string
segments around three interpolations of `targetDPI`.  The segments below are
verbatim transcriptions (backslash-newline does not occur inside the
literal; the braces of the PostScript text are written `\x7b`/`\x7d`). -/

def psPart0 : String :=
  "\n            << /EndPage \x7b"
    ++ "\n                2 dict begin"
    ++ "\n                /pdfmark where \x7bpop\x7d \x7buserdict /pdfmark /cleartomark load put\x7d ifelse"
    ++ "\n                ["
    ++ "\n                    /Title (Set DPI)"
    ++ "\n                    /Author (PDF Processor)"
    ++ "\n                    /Creator (PDF DPI Setter)"
    ++ "\n                    /Producer (Ghostscript)"
    ++ "\n                    /ModDate (D:20240214)"
    ++ "\n                    /CreationDate (D:20240214)"
    ++ "\n                    /Subject (DPI Modified PDF)"
    ++ "\n                    /Keywords (DPI, PDF)"
    ++ "\n                    /ViewerPreferences <<"
    ++ "\n                        /DisplayDocTitle true"
    ++ "\n                        /HideToolbar false"
    ++ "\n                        /HideMenubar false"
    ++ "\n                        /HideWindowUI false"
    ++ "\n                        /FitWindow false"
    ++ "\n                        /CenterWindow false"
    ++ "\n                        /ShowPrintDialog true"
    ++ "\n                    >>"
    ++ "\n                    /SetDistillerParams <<"
    ++ "\n                        /AutoRotatePages /None"
    ++ "\n                        /ColorImageDownsampleType /None"
    ++ "\n                        /GrayImageDownsampleType /None"
    ++ "\n                        /MonoImageDownsampleType /None"
    ++ "\n                        /ColorImageResolution "

def psPart1 : String := "\n                        /GrayImageResolution "

def psPart2 : String := "\n                        /MonoImageResolution "

def psPart3 : String :=
  "\n                        /DownsampleColorImages false"
    ++ "\n                        /DownsampleGrayImages false"
    ++ "\n                        /DownsampleMonoImages false"
    ++ "\n                        /AutoFilterColorImages false"
    ++ "\n                        /AutoFilterGrayImages false"
    ++ "\n                        /ColorImageFilter /FlateEncode"
    ++ "\n                        /GrayImageFilter /FlateEncode"
    ++ "\n                        /MonoImageFilter /CCITTFaxEncode"
    ++ "\n                        /ColorConversionStrategy /LeaveColorUnchanged"
    ++ "\n                        /PreserveOverprintSettings true"
    ++ "\n                        /UCRandBGInfo /Preserve"
    ++ "\n                        /ParseDSCComments true"
    ++ "\n                        /PreserveCopyPage true"
    ++ "\n                        /CannotEmbedFontPolicy /Warning"
    ++ "\n                    >>"
    ++ "\n                    /DOCINFO pdfmark"
    ++ "\n                \x7d stopped cleartomark"
    ++ "\n                end"
    ++ "\n                true"
    ++ "\n            \x7d bind>> setpagedevice"

/-- The override directive text (`psContent` in `setPdfDPI`,
`src/server.js:53-102`): the template literal with `targetDPI` interpolated
three times. -/
def psContent (targetDPI : Int) : String :=
  psPart0 ++ toString targetDPI ++ psPart1 ++ toString targetDPI ++ psPart2
    ++ toString targetDPI ++ psPart3

/-- `pat` occurs as a contiguous substring of `s`. -/
def occursIn (pat s : String) : Prop := pat.data <:+: s.data

/-- The fixed path of the directive file:
`path.join("uploads", "setdpi.ps")` (`src/server.js:52`). -/
def psFilePath : String := pathJoin "uploads" "setdpi.ps"

/-- A staged uploaded file as multer hands it to the route handler: its
on-disk path in `uploads/` and the caller-supplied original name. -/
structure UploadedFile where
  path : String
  originalname : String
deriving DecidableEq

/-- One entry of the success response (`results.push`,
`src/server.js:161-166`). -/
structure ConversionResult where
  originalName : String
  name : String
  url : String
  dpi : Int
deriving DecidableEq

/-- One invocation of the external Ghostscript engine, with the values the
server interpolates into the command line (`src/server.js:108-122`). -/
structure GsInvocation where
  psFile : String
  inputPath : String
  outputPath : String
  targetDPI : Int
deriving DecidableEq

/-- The argument vector of the `gs` command built in `setPdfDPI`
(`src/server.js:108-122`); shell quoting around the three file paths is
resolved into separate argument words. -/
def gsCommand (inv : GsInvocation) : List String :=
  ["gs", "-sDEVICE=pdfwrite", "-dNOPAUSE", "-dBATCH", "-dQUIET",
   "-dPDFSETTINGS=/prepress", "-dCompatibilityLevel=1.4",
   "-dDEVICEXRESOLUTION=" ++ toString inv.targetDPI,
   "-dDEVICEYRESOLUTION=" ++ toString inv.targetDPI,
   "-dFIXEDMEDIA", "-dPDFX", "-dUseCIEColor",
   "-f", inv.psFile, "-f", inv.inputPath,
   "-sOutputFile=" ++ inv.outputPath]

/-- Oracle for one conversion attempt: whether `fs.writeFile` of the
directive succeeds, and the engine's outcome — `some bytes` means the
subprocess exits 0 having written `bytes` to the output path, `none` means a
non-zero exit or spawn error (in which case it writes nothing). -/
structure AttemptOracle where
  writeOk : Bool
  engineOut : Option String

structure AttemptOut where
  fs : FS
  invocations : List GsInvocation
  directiveWrites : List String
  result : Except String Unit

/-- `setPdfDPI(inputPath, outputPath, targetDPI)` (`src/server.js:49-140`):
write the directive to the fixed `psFile` path; on write failure reject with
no engine invocation; otherwise run `gs`, then unconditionally unlink the
directive in the exec callback, resolving on success and rejecting on engine
error.  `directiveWrites` records the path targeted by the `fs.writeFile`.
-/
def setPdfDPI (o : AttemptOracle) (fs : FS) (inputPath outputPath : String)
    (targetDPI : Int) : AttemptOut :=
  let psFile := psFilePath
  if o.writeOk then
    let fs1 := fsWrite fs psFile (psContent targetDPI)
    let inv : GsInvocation := ⟨psFile, inputPath, outputPath, targetDPI⟩
    match o.engineOut with
    | some outBytes =>
      let fs2 := fsWrite fs1 outputPath outBytes
      let fs3 := fsUnlink fs2 psFile
      ⟨fs3, [inv], [psFile], .ok ()⟩
    | none =>
      let fs2 := fsUnlink fs1 psFile
      ⟨fs2, [inv], [psFile], .error "Failed to set PDF DPI"⟩
  else
    ⟨fs, [], [psFile], .error "Failed to create PostScript file"⟩

/-- The output file name drawn for the `j`-th `crypto.randomBytes(16)` of a
request: `${crypto.randomBytes(16).toString("hex")}.pdf`
(`src/server.js:156`). -/
def outputNameOf (token : Nat → List (Fin 256)) (j : Nat) : String :=
  hexEncode (token j) ++ ".pdf"

/-- `path.join("output", outputFileName)` (`src/server.js:157`). -/
def outputPathOf (token : Nat → List (Fin 256)) (j : Nat) : String :=
  pathJoin "output" (outputNameOf token j)

structure LoopOut where
  fs : FS
  invocations : List GsInvocation
  directiveWrites : List String
  result : Except String (List ConversionResult)

/-- The per-file loop of the `/convert` handler (`src/server.js:155-174`):
for each staged file draw a random output name, attempt `setPdfDPI`, push a
result on success, rethrow on failure (aborting the remaining files), and in
all cases (`finally`) unlink the staged input file. -/
def convertLoop (oracle : Nat → AttemptOracle) (token : Nat → List (Fin 256))
    (dpi : Int) : List UploadedFile → Nat → FS → LoopOut
  | [], _, fs => ⟨fs, [], [], .ok []⟩
  | f :: rest, i, fs =>
    let outputFileName := outputNameOf token i
    let outputPath := pathJoin "output" outputFileName
    let a := setPdfDPI (oracle i) fs f.path outputPath dpi
    let fs2 := fsUnlink a.fs f.path
    match a.result with
    | .ok _ =>
      let res : ConversionResult :=
        ⟨f.originalname, outputFileName, "/output/" ++ outputFileName, dpi⟩
      let L := convertLoop oracle token dpi rest (i + 1) fs2
      ⟨L.fs, a.invocations ++ L.invocations, a.directiveWrites ++ L.directiveWrites,
        L.result.map (res :: ·)⟩
    | .error e => ⟨fs2, a.invocations, a.directiveWrites, .error e⟩

/-- The `/convert` request as the route handler sees it: the staged files and
the raw `dpi` form field (`none` when the field is missing). -/
structure ReqModel where
  files : List UploadedFile
  dpi : Option String

inductive Response where
  | ok200 (message : String) (files : List ConversionResult)
  | badRequest (error : String)
  | err500 (error : String) (details : String)
  | uploadError (error : String)
  | notFound (error : String)
  | download (bytes : String)
deriving DecidableEq

structure HandlerOut where
  fs : FS
  invocations : List GsInvocation
  directiveWrites : List String
  response : Response

/-- The `POST /convert` route handler (`src/server.js:143-188`): empty batch
→ 400; out-of-range effective DPI → 400; otherwise run the per-file loop,
answering 200 with the accumulated results, or 500 when the loop threw. -/
def convertHandler (oracle : Nat → AttemptOracle) (token : Nat → List (Fin 256))
    (fs : FS) (req : ReqModel) : HandlerOut :=
  if req.files.isEmpty then ⟨fs, [], [], .badRequest "No files uploaded"⟩
  else
    let targetDPI := effectiveDPI req.dpi
    if targetDPI < 72 ∨ targetDPI > 2400 then
      ⟨fs, [], [], .badRequest "DPI must be between 72 and 2400"⟩
    else
      let L := convertLoop oracle token targetDPI req.files 0 fs
      match L.result with
      | .ok results =>
        ⟨L.fs, L.invocations, L.directiveWrites,
          .ok200 "Files processed successfully" results⟩
      | .error e =>
        ⟨L.fs, L.invocations, L.directiveWrites, .err500 "Internal Server Error" e⟩

/-- The `GET /output/:filename` handler (`src/server.js:191-199`): look the
file up under the output directory, stream it on success, 404 otherwise. -/
def outputHandler (fs : FS) (filename : String) : Response :=
  match fsLookup fs (pathJoin "output" filename) with
  | some bytes => .download bytes
  | none => .notFound "File not found"

/-- An incoming multipart file part before any validation. -/
structure IncomingFile where
  originalname : String
  mimetype : String
  content : String

/-- Node `path.extname` for a plain file name (no directory separators): the
suffix from the last dot, or `""` when there is no dot or the only dot leads
the name. -/
def extname (s : String) : String :=
  let pre := s.data.reverse.takeWhile (fun c => c ≠ '.')
  if pre.length + 1 ≤ s.data.length then
    if pre.length + 1 = s.data.length then ""
    else ⟨'.' :: pre.reverse⟩
  else ""

/-- The multer `fileFilter` (`src/server.js:23-29`): reject any file whose
declared content type is not `application/pdf`. -/
def fileFilter (f : IncomingFile) : Except String Unit :=
  if f.mimetype ≠ "application/pdf" then .error "Only PDF files are allowed"
  else .ok ()

/-- Modelled from the spec: the multer upload middleware itself
(`upload.array("files")`) is library code not present under `src/`; per the
spec's Upload Intake contract it runs the repository's `fileFilter` on each
part in order, stages each accepted file in the holding directory under a
random-token name plus the original extension, and fails the whole request
on the first filter error, with no staging of the rejected file. -/
def intake (token : Nat → List (Fin 256)) :
    List IncomingFile → Nat → FS → FS × Except String (List UploadedFile)
  | [], _, fs => (fs, .ok [])
  | f :: rest, i, fs =>
    match fileFilter f with
    | .error e => (fs, .error e)
    | .ok _ =>
      let storageName := hexEncode (token i) ++ extname f.originalname
      let p := pathJoin "uploads" storageName
      let fs1 := fsWrite fs p f.content
      match intake token rest (i + 1) fs1 with
      | (fs2, .ok ufs) => (fs2, .ok (⟨p, f.originalname⟩ :: ufs))
      | (fs2, .error e) => (fs2, .error e)

/-- The whole `/convert` request pipeline: multer intake (staging), then the
route handler.  A filter error surfaces through Express's error handling as
a request failure (`uploadError`), with the handler never run.
`stageToken` and `outToken` are the two streams of `crypto.randomBytes(16)`
draws (for staging names and output names respectively). -/
def handleConvertRequest (oracle : Nat → AttemptOracle)
    (stageToken outToken : Nat → List (Fin 256)) (fs : FS)
    (incoming : List IncomingFile) (dpi : Option String) : HandlerOut :=
  match intake stageToken incoming 0 fs with
  | (fs1, .error e) => ⟨fs1, [], [], .uploadError e⟩
  | (fs1, .ok ufs) => convertHandler oracle outToken fs1 ⟨ufs, dpi⟩

/-! ## Attempt-level lemmas -/

theorem string_data_inj {a b : String} (h : a.data = b.data) : a = b := by
  cases a
  cases b
  exact congrArg String.mk (by simpa using h)

theorem setPdfDPI_directiveWrites (o : AttemptOracle) (fs : FS) (ip op : String) (d : Int) :
    (setPdfDPI o fs ip op d).directiveWrites = [psFilePath] := by
  unfold setPdfDPI
  cases hw : o.writeOk <;> cases he : o.engineOut <;> simp [hw, he]

theorem setPdfDPI_invocations (o : AttemptOracle) (fs : FS) (ip op : String) (d : Int) :
    (setPdfDPI o fs ip op d).invocations =
      if o.writeOk then [⟨psFilePath, ip, op, d⟩] else [] := by
  unfold setPdfDPI
  cases hw : o.writeOk <;> cases he : o.engineOut <;> simp [hw, he]

theorem setPdfDPI_psFile (o : AttemptOracle) (fs : FS) (ip op : String) (d : Int) :
    fsLookup (setPdfDPI o fs ip op d).fs psFilePath =
      if o.writeOk then none else fsLookup fs psFilePath := by
  unfold setPdfDPI
  cases hw : o.writeOk <;> cases he : o.engineOut <;>
    simp [hw, he, fsLookup_fsWrite, fsLookup_fsUnlink]

theorem setPdfDPI_lookup_other (o : AttemptOracle) (fs : FS) (ip op : String) (d : Int)
    (p : String) (hps : p ≠ psFilePath) (hop : p ≠ op) :
    fsLookup (setPdfDPI o fs ip op d).fs p = fsLookup fs p := by
  unfold setPdfDPI
  cases hw : o.writeOk <;> cases he : o.engineOut <;>
    simp [hw, he, fsLookup_fsWrite, fsLookup_fsUnlink, hps, hop]

theorem setPdfDPI_output (o : AttemptOracle) (fs : FS) (ip op : String) (d : Int)
    (b : String) (hw : o.writeOk = true) (he : o.engineOut = some b)
    (hop : op ≠ psFilePath) :
    fsLookup (setPdfDPI o fs ip op d).fs op = some b := by
  unfold setPdfDPI
  simp [hw, he, fsLookup_fsWrite, fsLookup_fsUnlink, hop]

theorem setPdfDPI_result_ok (o : AttemptOracle) (fs : FS) (ip op : String) (d : Int)
    (b : String) (hw : o.writeOk = true) (he : o.engineOut = some b) :
    (setPdfDPI o fs ip op d).result = .ok () := by
  unfold setPdfDPI
  simp [hw, he]

theorem setPdfDPI_result_err (o : AttemptOracle) (fs : FS) (ip op : String) (d : Int)
    (h : o.writeOk = false ∨ o.engineOut = none) :
    ∃ e, (setPdfDPI o fs ip op d).result = .error e := by
  unfold setPdfDPI
  rcases h with hw | he
  · exact ⟨"Failed to create PostScript file", by simp [hw]⟩
  · cases hw : o.writeOk
    · exact ⟨"Failed to create PostScript file", by simp [hw]⟩
    · exact ⟨"Failed to set PDF DPI", by simp [hw, he]⟩

/-! ## Path disjointness helpers -/

theorem pathJoin_output_head (s : String) : (pathJoin "output" s).data.head? = some 'o' := rfl

theorem psFilePath_head : psFilePath.data.head? = some 'u' := rfl

theorem ne_of_head {a b : String} {c d : Char} (ha : a.data.head? = some c)
    (hb : b.data.head? = some d) (hcd : c ≠ d) : a ≠ b := by
  intro h
  rw [h, hb] at ha
  exact hcd (Option.some.inj ha).symm

theorem pathJoin_output_inj {a b : String} (h : pathJoin "output" a = pathJoin "output" b) :
    a = b := by
  have hd := congrArg String.data h
  simp only [pathJoin, String.data_append] at hd
  exact string_data_inj (List.append_cancel_left hd)

theorem outputNameOf_inj (token : Nat → List (Fin 256))
    (htok : ∀ i j, token i = token j → i = j) (i j : Nat)
    (h : outputNameOf token i = outputNameOf token j) : i = j := by
  apply htok
  apply hexEncode_injective
  have hd := congrArg String.data h
  simp only [outputNameOf, String.data_append] at hd
  exact string_data_inj (List.append_cancel_right hd)

theorem outputPathOf_inj (token : Nat → List (Fin 256))
    (htok : ∀ i j, token i = token j → i = j) (i j : Nat)
    (h : outputPathOf token i = outputPathOf token j) : i = j :=
  outputNameOf_inj token htok i j (pathJoin_output_inj h)

/-! ## Loop-level lemmas -/

theorem convertLoop_directiveWrites (oracle : Nat → AttemptOracle)
    (token : Nat → List (Fin 256)) (dpi : Int) :
    ∀ (files : List UploadedFile) (i : Nat) (fs : FS),
      ∀ p ∈ (convertLoop oracle token dpi files i fs).directiveWrites, p = psFilePath
  | [], _, _ => by simp [convertLoop]
  | f :: rest, i, fs => by
    have ih := convertLoop_directiveWrites oracle token dpi rest (i + 1)
    simp only [convertLoop]
    rcases ha : (setPdfDPI (oracle i) fs f.path
        (pathJoin "output" (outputNameOf token i)) dpi).result with u | e <;>
      simp only [ha] <;> intro p hp
    · rw [setPdfDPI_directiveWrites] at hp
      simp only [List.mem_singleton] at hp
      exact hp
    · rw [setPdfDPI_directiveWrites] at hp
      rcases List.mem_append.mp hp with h | h
      · simpa using h
      · exact ih _ p h

theorem convertLoop_invocations_dpi (oracle : Nat → AttemptOracle)
    (token : Nat → List (Fin 256)) (dpi : Int) :
    ∀ (files : List UploadedFile) (i : Nat) (fs : FS),
      ∀ inv ∈ (convertLoop oracle token dpi files i fs).invocations, inv.targetDPI = dpi
  | [], _, _ => by simp [convertLoop]
  | f :: rest, i, fs => by
    have ih := convertLoop_invocations_dpi oracle token dpi rest (i + 1)
    simp only [convertLoop]
    rcases ha : (setPdfDPI (oracle i) fs f.path
        (pathJoin "output" (outputNameOf token i)) dpi).result with u | e <;>
      simp only [ha] <;> intro inv hinv
    · rw [setPdfDPI_invocations] at hinv
      rcases hw : (oracle i).writeOk <;> simp [hw] at hinv
      rw [hinv]
    · rw [setPdfDPI_invocations] at hinv
      rcases List.mem_append.mp hinv with h | h
      · rcases hw : (oracle i).writeOk <;> simp [hw] at h
        rw [h]
      · exact ih _ inv h

theorem convertLoop_invocations_inputs (oracle : Nat → AttemptOracle)
    (token : Nat → List (Fin 256)) (dpi : Int) :
    ∀ (files : List UploadedFile) (i : Nat) (fs : FS),
      ∀ inv ∈ (convertLoop oracle token dpi files i fs).invocations,
        inv.inputPath ∈ files.map (·.path)
  | [], _, _ => by simp [convertLoop]
  | f :: rest, i, fs => by
    have ih := convertLoop_invocations_inputs oracle token dpi rest (i + 1)
    simp only [convertLoop]
    rcases ha : (setPdfDPI (oracle i) fs f.path
        (pathJoin "output" (outputNameOf token i)) dpi).result with u | e <;>
      simp only [ha] <;> intro inv hinv
    · rw [setPdfDPI_invocations] at hinv
      rcases hw : (oracle i).writeOk <;> simp [hw] at hinv
      rw [hinv]
      simp
    · rw [setPdfDPI_invocations] at hinv
      rcases List.mem_append.mp hinv with h | h
      · rcases hw : (oracle i).writeOk <;> simp [hw] at h
        rw [h]
        simp
      · have := ih _ inv h
        simp only [List.map_cons, List.mem_cons]
        right
        exact this

theorem convertLoop_ok_mem (oracle : Nat → AttemptOracle)
    (token : Nat → List (Fin 256)) (dpi : Int) :
    ∀ (files : List UploadedFile) (i : Nat) (fs : FS)
      (rs : List ConversionResult),
      (convertLoop oracle token dpi files i fs).result = .ok rs →
      ∀ r ∈ rs, ∃ j, i ≤ j ∧ j < i + files.length ∧
        r.name = outputNameOf token j ∧ r.url = "/output/" ++ outputNameOf token j ∧
        r.dpi = dpi
  | [], _, _, rs => by
    intro h r hr
    simp [convertLoop] at h
    subst h
    simp at hr
  | f :: rest, i, fs, rs => by
    have ih := convertLoop_ok_mem oracle token dpi rest (i + 1)
    simp only [convertLoop]
    rcases ha : (setPdfDPI (oracle i) fs f.path
        (pathJoin "output" (outputNameOf token i)) dpi).result with e | u <;>
      simp only [ha]
    · intro h
      exact Except.noConfusion h
    · intro h r hr
      rcases hL : (convertLoop oracle token dpi rest (i + 1)
          (fsUnlink (setPdfDPI (oracle i) fs f.path
            (pathJoin "output" (outputNameOf token i)) dpi).fs f.path)).result with v | rs'
      · rw [hL] at h
        simp [Except.map] at h
      · rw [hL] at h
        simp only [Except.map, Except.ok.injEq] at h
        subst h
        rcases List.mem_cons.mp hr with h | h
        · exact ⟨i, le_refl i, by simp, by rw [h], by rw [h], by rw [h]⟩
        · obtain ⟨j, hj1, hj2, hj3⟩ := ih _ _ hL r h
          exact ⟨j, by omega, by simp; omega, hj3⟩

theorem convertLoop_psFile_none (oracle : Nat → AttemptOracle)
    (token : Nat → List (Fin 256)) (dpi : Int) :
    ∀ (files : List UploadedFile) (i : Nat) (fs : FS),
      fsLookup fs psFilePath = none →
      fsLookup (convertLoop oracle token dpi files i fs).fs psFilePath = none
  | [], _, _ => by
    intro h
    simpa [convertLoop] using h
  | f :: rest, i, fs => by
    intro h
    have ih := convertLoop_psFile_none oracle token dpi rest (i + 1)
    have hps : fsLookup (setPdfDPI (oracle i) fs f.path
        (pathJoin "output" (outputNameOf token i)) dpi).fs psFilePath = none := by
      rw [setPdfDPI_psFile]
      rcases hw : (oracle i).writeOk <;> simp [h]
    have hps2 : fsLookup (fsUnlink (setPdfDPI (oracle i) fs f.path
        (pathJoin "output" (outputNameOf token i)) dpi).fs f.path) psFilePath = none := by
      rw [fsLookup_fsUnlink]
      by_cases hq : psFilePath = f.path <;> simp [hq, hps]
    simp only [convertLoop]
    rcases ha : (setPdfDPI (oracle i) fs f.path
        (pathJoin "output" (outputNameOf token i)) dpi).result with e | u <;>
      simp only [ha]
    · exact hps2
    · exact ih _ hps2

theorem convertLoop_none_mono (oracle : Nat → AttemptOracle)
    (token : Nat → List (Fin 256)) (dpi : Int) (p : String) (hps : p ≠ psFilePath) :
    ∀ (files : List UploadedFile) (i : Nat) (fs : FS),
      (∀ j, i ≤ j → j < i + files.length → p ≠ outputPathOf token j) →
      fsLookup fs p = none →
      fsLookup (convertLoop oracle token dpi files i fs).fs p = none
  | [], _, _ => by
    intro _ h
    simpa [convertLoop] using h
  | f :: rest, i, fs => by
    intro hout h
    have ih := convertLoop_none_mono oracle token dpi p hps rest (i + 1)
    have h1 : fsLookup (setPdfDPI (oracle i) fs f.path
        (pathJoin "output" (outputNameOf token i)) dpi).fs p = none := by
      have hne : p ≠ pathJoin "output" (outputNameOf token i) :=
        hout i (le_refl i) (by simp)
      rw [setPdfDPI_lookup_other _ _ _ _ _ _ hps hne]
      exact h
    have h2 : fsLookup (fsUnlink (setPdfDPI (oracle i) fs f.path
        (pathJoin "output" (outputNameOf token i)) dpi).fs f.path) p = none := by
      rw [fsLookup_fsUnlink]
      by_cases hq : p = f.path <;> simp [hq, h1]
    simp only [convertLoop]
    rcases ha : (setPdfDPI (oracle i) fs f.path
        (pathJoin "output" (outputNameOf token i)) dpi).result with e | u <;>
      simp only [ha]
    · exact h2
    · exact ih _ (fun j hj1 hj2 => hout j (by omega) (by simp; omega)) h2

theorem convertLoop_lookup_preserved (oracle : Nat → AttemptOracle)
    (token : Nat → List (Fin 256)) (dpi : Int) (p : String) (hps : p ≠ psFilePath) :
    ∀ (files : List UploadedFile) (i : Nat) (fs : FS),
      (∀ f ∈ files, p ≠ f.path) →
      (∀ j, i ≤ j → j < i + files.length → p ≠ outputPathOf token j) →
      fsLookup (convertLoop oracle token dpi files i fs).fs p = fsLookup fs p
  | [], _, _ => by
    intro _ _
    simp [convertLoop]
  | f :: rest, i, fs => by
    intro hf hout
    have ih := convertLoop_lookup_preserved oracle token dpi p hps rest (i + 1)
    have h1 : fsLookup (setPdfDPI (oracle i) fs f.path
        (pathJoin "output" (outputNameOf token i)) dpi).fs p = fsLookup fs p := by
      have hne : p ≠ pathJoin "output" (outputNameOf token i) :=
        hout i (le_refl i) (by simp)
      exact setPdfDPI_lookup_other _ _ _ _ _ _ hps hne
    have h2 : fsLookup (fsUnlink (setPdfDPI (oracle i) fs f.path
        (pathJoin "output" (outputNameOf token i)) dpi).fs f.path) p = fsLookup fs p := by
      rw [fsLookup_fsUnlink]
      have : p ≠ f.path := hf f (by simp)
      simp [this, h1]
    simp only [convertLoop]
    rcases ha : (setPdfDPI (oracle i) fs f.path
        (pathJoin "output" (outputNameOf token i)) dpi).result with e | u <;>
      simp only [ha]
    · exact h2
    · rw [ih _ (fun g hg => hf g (by simp [hg]))
        (fun j hj1 hj2 => hout j (by omega) (by simp; omega))]
      exact h2

theorem convertLoop_staged_gone (oracle : Nat → AttemptOracle)
    (token : Nat → List (Fin 256)) (dpi : Int) :
    ∀ (files : List UploadedFile) (i : Nat) (fs : FS),
      (∀ f ∈ files, f.path.data.head? = some 'u' ∧ f.path ≠ psFilePath) →
      ∀ f ∈ files.take (convertLoop oracle token dpi files i fs).directiveWrites.length,
        fsLookup (convertLoop oracle token dpi files i fs).fs f.path = none
  | [], _, _ => by
    intro _ f hf
    simp [convertLoop] at hf
  | f :: rest, i, fs => by
    intro hpaths
    have ih := convertLoop_staged_gone oracle token dpi rest (i + 1)
    have hgone : fsLookup (fsUnlink (setPdfDPI (oracle i) fs f.path
        (pathJoin "output" (outputNameOf token i)) dpi).fs f.path) f.path = none := by
      rw [fsLookup_fsUnlink]
      simp
    simp only [convertLoop]
    rcases ha : (setPdfDPI (oracle i) fs f.path
        (pathJoin "output" (outputNameOf token i)) dpi).result with e | u <;>
      simp only [ha]
    · rw [setPdfDPI_directiveWrites]
      intro g hg
      simp only [List.length_singleton, List.take_succ_cons, List.take_zero,
        List.mem_singleton] at hg
      rw [hg]
      exact hgone
    · rw [setPdfDPI_directiveWrites]
      intro g hg
      simp only [List.singleton_append, List.length_cons, List.take_succ_cons,
        List.mem_cons] at hg
      rcases hg with hg | hg
      · rw [hg]
        apply convertLoop_none_mono oracle token dpi f.path (hpaths f (by simp)).2
        · intro j _ _
          exact ne_of_head (hpaths f (by simp)).1 (pathJoin_output_head _) (by decide)
        · exact hgone
      · exact ih _ (fun g' hg' => hpaths g' (by simp [hg'])) g hg

theorem convertLoop_success (oracle : Nat → AttemptOracle)
    (token : Nat → List (Fin 256)) (dpi : Int) (bs : Nat → String) :
    ∀ (files : List UploadedFile) (i : Nat) (fs : FS),
      (∀ j, j < files.length → oracle (i + j) = ⟨true, some (bs (i + j))⟩) →
      ∃ rs, (convertLoop oracle token dpi files i fs).result = .ok rs ∧
        rs.length = files.length
  | [], _, _ => by
    intro _
    exact ⟨[], rfl, rfl⟩
  | f :: rest, i, fs => by
    intro hall
    have h0 := hall 0 (by simp)
    have hw : (oracle i).writeOk = true := by rw [show i + 0 = i by omega] at h0; rw [h0]
    have he : (oracle i).engineOut = some (bs i) := by
      rw [show i + 0 = i by omega] at h0
      rw [h0]
    have ih := convertLoop_success oracle token dpi bs rest (i + 1)
      (fsUnlink (setPdfDPI (oracle i) fs f.path
        (pathJoin "output" (outputNameOf token i)) dpi).fs f.path)
      (by
        intro j hj
        have := hall (j + 1) (by simpa using Nat.succ_lt_succ hj)
        rwa [show i + (j + 1) = i + 1 + j by omega] at this)
    obtain ⟨rs, hrs, hlen⟩ := ih
    have ha := setPdfDPI_result_ok (oracle i) fs f.path
      (pathJoin "output" (outputNameOf token i)) dpi (bs i) hw he
    refine ⟨⟨f.originalname, outputNameOf token i, "/output/" ++ outputNameOf token i, dpi⟩ :: rs, ?_, by simpa using hlen⟩
    simp only [convertLoop, ha, hrs, Except.map]

theorem convertLoop_success_outputs (oracle : Nat → AttemptOracle)
    (token : Nat → List (Fin 256)) (dpi : Int) (bs : Nat → String)
    (htok : ∀ i j, token i = token j → i = j) :
    ∀ (files : List UploadedFile) (i : Nat) (fs : FS),
      (∀ j, j < files.length → oracle (i + j) = ⟨true, some (bs (i + j))⟩) →
      (∀ f ∈ files, f.path.data.head? = some 'u') →
      ∀ j, j < files.length →
        fsLookup (convertLoop oracle token dpi files i fs).fs
          (outputPathOf token (i + j)) = some (bs (i + j))
  | [], _, _ => by
    intro _ _ j hj
    simp at hj
  | f :: rest, i, fs => by
    intro hall hpaths j hj
    have h0 := hall 0 (by simp)
    rw [show i + 0 = i by omega] at h0
    have hw : (oracle i).writeOk = true := by rw [h0]
    have he : (oracle i).engineOut = some (bs i) := by rw [h0]
    have hopne : pathJoin "output" (outputNameOf token i) ≠ psFilePath :=
      ne_of_head (pathJoin_output_head _) psFilePath_head (by decide)
    have ha := setPdfDPI_result_ok (oracle i) fs f.path
      (pathJoin "output" (outputNameOf token i)) dpi (bs i) hw he
    simp only [convertLoop, ha]
    rcases Nat.eq_zero_or_pos j with hj0 | hjpos
    · subst hj0
      rw [show i + 0 = i by omega]
      have hafter : fsLookup (fsUnlink (setPdfDPI (oracle i) fs f.path
          (pathJoin "output" (outputNameOf token i)) dpi).fs f.path)
          (outputPathOf token i) = some (bs i) := by
        rw [fsLookup_fsUnlink]
        have hne : outputPathOf token i ≠ f.path :=
          ne_of_head (pathJoin_output_head _) (hpaths f (by simp)) (by decide)
        rw [if_neg hne]
        exact setPdfDPI_output (oracle i) fs f.path _ dpi (bs i) hw he hopne
      rw [convertLoop_lookup_preserved oracle token dpi (outputPathOf token i)
        (ne_of_head (pathJoin_output_head _) psFilePath_head (by decide)) rest (i + 1) _
        (fun g hg => ne_of_head (pathJoin_output_head _) (hpaths g (by simp [hg])) (by decide))
        (fun k hk1 _ hkeq => by
          have := outputPathOf_inj token htok i k hkeq
          omega)]
      exact hafter
    · obtain ⟨j', rfl⟩ : ∃ j', j = j' + 1 := ⟨j - 1, by omega⟩
      have ih := convertLoop_success_outputs oracle token dpi bs htok rest (i + 1)
        (fsUnlink (setPdfDPI (oracle i) fs f.path
          (pathJoin "output" (outputNameOf token i)) dpi).fs f.path)
        (by
          intro k hk
          have := hall (k + 1) (by simpa using Nat.succ_lt_succ hk)
          rwa [show i + (k + 1) = i + 1 + k by omega] at this)
        (fun g hg => hpaths g (by simp [hg])) j' (by simpa using Nat.lt_of_succ_lt_succ hj)
      rwa [show i + 1 + j' = i + (j' + 1) by omega] at ih

theorem convertLoop_fail (oracle : Nat → AttemptOracle)
    (token : Nat → List (Fin 256)) (dpi : Int) (bs : Nat → String)
    (htok : ∀ i j, token i = token j → i = j) :
    ∀ (good : List UploadedFile) (bad : UploadedFile) (rest : List UploadedFile)
      (i : Nat) (fs : FS),
      (∀ j, j < good.length → oracle (i + j) = ⟨true, some (bs (i + j))⟩) →
      ((oracle (i + good.length)).writeOk = false ∨
        (oracle (i + good.length)).engineOut = none) →
      (∀ f ∈ good ++ bad :: rest, f.path.data.head? = some 'u') →
      ∃ e, (convertLoop oracle token dpi (good ++ bad :: rest) i fs).result = .error e ∧
        (convertLoop oracle token dpi (good ++ bad :: rest) i fs).invocations.length ≤
          good.length + 1 ∧
        (∀ inv ∈ (convertLoop oracle token dpi (good ++ bad :: rest) i fs).invocations,
          inv.inputPath ∈ good.map (·.path) ++ [bad.path]) ∧
        (∀ j, j < good.length →
          fsLookup (convertLoop oracle token dpi (good ++ bad :: rest) i fs).fs
            (outputPathOf token (i + j)) = some (bs (i + j)))
  | [], bad, rest, i, fs => by
    intro _ hbad _
    rw [show i + List.length [] = i by simp] at hbad
    obtain ⟨e, he⟩ := setPdfDPI_result_err (oracle i) fs bad.path
      (pathJoin "output" (outputNameOf token i)) dpi hbad
    refine ⟨e, ?_, ?_, ?_, ?_⟩
    · simp only [List.nil_append, convertLoop, he]
    · simp only [List.nil_append, convertLoop, he, setPdfDPI_invocations]
      rcases hw : (oracle i).writeOk <;> simp
    · simp only [List.nil_append, convertLoop, he, setPdfDPI_invocations]
      intro inv hinv
      rcases hw : (oracle i).writeOk <;> simp [hw] at hinv
      rw [hinv]
      simp
    · intro j hj
      simp at hj
  | g :: gs, bad, rest, i, fs => by
    intro hgood hbad hpaths
    have h0 := hgood 0 (by simp)
    rw [show i + 0 = i by omega] at h0
    have hw : (oracle i).writeOk = true := by rw [h0]
    have he : (oracle i).engineOut = some (bs i) := by rw [h0]
    have hopne : pathJoin "output" (outputNameOf token i) ≠ psFilePath :=
      ne_of_head (pathJoin_output_head _) psFilePath_head (by decide)
    have ha := setPdfDPI_result_ok (oracle i) fs g.path
      (pathJoin "output" (outputNameOf token i)) dpi (bs i) hw he
    have hbad' : (oracle (i + 1 + gs.length)).writeOk = false ∨
        (oracle (i + 1 + gs.length)).engineOut = none := by
      have hlen : i + (g :: gs).length = i + 1 + gs.length := by simp; omega
      rwa [hlen] at hbad
    obtain ⟨e, ih1, ih2, ih3, ih4⟩ := convertLoop_fail oracle token dpi bs htok gs bad rest
      (i + 1)
      (fsUnlink (setPdfDPI (oracle i) fs g.path
        (pathJoin "output" (outputNameOf token i)) dpi).fs g.path)
      (by
        intro j hj
        have := hgood (j + 1) (by simpa using Nat.succ_lt_succ hj)
        rwa [show i + (j + 1) = i + 1 + j by omega] at this)
      hbad'
      (fun f hf => hpaths f (by simpa using List.mem_cons_of_mem g hf))
    refine ⟨e, ?_, ?_, ?_, ?_⟩
    · simp only [List.cons_append, convertLoop, List.append_eq, ha, ih1, Except.map]
    · simp only [List.cons_append, convertLoop, List.append_eq, ha, List.length_append,
        setPdfDPI_invocations, hw]
      have h2 := ih2
      simp only [List.append_eq] at h2 ⊢
      simp
      omega
    · simp only [List.cons_append, convertLoop, List.append_eq, ha]
      intro inv hinv
      rcases List.mem_append.mp hinv with h | h
      · rw [setPdfDPI_invocations, hw] at h
        simp at h
        rw [h]
        simp
      · have := ih3 inv h
        simp only [List.map_cons, List.cons_append, List.mem_cons]
        right
        simpa using this
    · intro j hj
      simp only [List.cons_append, convertLoop, List.append_eq, ha]
      rcases Nat.eq_zero_or_pos j with hj0 | hjpos
      · subst hj0
        rw [show i + 0 = i by omega]
        have hafter : fsLookup (fsUnlink (setPdfDPI (oracle i) fs g.path
            (pathJoin "output" (outputNameOf token i)) dpi).fs g.path)
            (outputPathOf token i) = some (bs i) := by
          rw [fsLookup_fsUnlink]
          have hne : outputPathOf token i ≠ g.path :=
            ne_of_head (pathJoin_output_head _) (hpaths g (by simp)) (by decide)
          rw [if_neg hne]
          exact setPdfDPI_output (oracle i) fs g.path _ dpi (bs i) hw he hopne
        rw [convertLoop_lookup_preserved oracle token dpi (outputPathOf token i)
          (ne_of_head (pathJoin_output_head _) psFilePath_head (by decide))
          (gs ++ bad :: rest) (i + 1) _
          (fun f hf => ne_of_head (pathJoin_output_head _)
            (hpaths f (by simpa using List.mem_cons_of_mem g hf)) (by decide))
          (fun k hk1 _ hkeq => by
            have := outputPathOf_inj token htok i k hkeq
            omega)]
        exact hafter
      · obtain ⟨j', rfl⟩ : ∃ j', j = j' + 1 := ⟨j - 1, by omega⟩
        have := ih4 j' (by simp at hj; omega)
        rwa [show i + 1 + j' = i + (j' + 1) by omega] at this

/-! ## Intake lemmas -/

theorem pathJoin_uploads_head (s : String) : (pathJoin "uploads" s).data.head? = some 'u' := rfl

theorem intake_error_msg (token : Nat → List (Fin 256)) :
    ∀ (incoming : List IncomingFile) (i : Nat) (fs : FS),
      (∃ f ∈ incoming, f.mimetype ≠ "application/pdf") →
      (intake token incoming i fs).2 = .error "Only PDF files are allowed"
  | [], _, _ => by
    intro h
    simp at h
  | f :: rest, i, fs => by
    intro h
    by_cases hm : f.mimetype = "application/pdf"
    · have hrest : ∃ g ∈ rest, g.mimetype ≠ "application/pdf" := by
        rcases h with ⟨g, hg, hgm⟩
        rcases List.mem_cons.mp hg with rfl | hg'
        · exact absurd hm hgm
        · exact ⟨g, hg', hgm⟩
      have ih := intake_error_msg token rest (i + 1)
        (fsWrite fs (pathJoin "uploads" (hexEncode (token i) ++ extname f.originalname))
          f.content) hrest
      simp only [intake, fileFilter, hm]
      simp only [ne_eq, not_true_eq_false, if_false, ite_false]
      rcases hrec : intake token rest (i + 1)
          (fsWrite fs (pathJoin "uploads" (hexEncode (token i) ++ extname f.originalname))
            f.content) with ⟨fs2, r⟩
      rw [hrec] at ih
      rcases r with e | ufs
      · simpa using ih
      · simp at ih
    · simp [intake, fileFilter, hm]

theorem intake_writes (token : Nat → List (Fin 256)) :
    ∀ (incoming : List IncomingFile) (i : Nat) (fs : FS) (p : String),
      fsLookup (intake token incoming i fs).1 p ≠ fsLookup fs p →
      ∃ g ∈ incoming, g.mimetype = "application/pdf" ∧
        fsLookup (intake token incoming i fs).1 p = some g.content ∧
        p.data.head? = some 'u'
  | [], _, _, p => by
    intro h
    simp [intake] at h
  | f :: rest, i, fs, p => by
    intro h
    by_cases hm : f.mimetype = "application/pdf"
    · have ih := intake_writes token rest (i + 1)
        (fsWrite fs (pathJoin "uploads" (hexEncode (token i) ++ extname f.originalname))
          f.content) p
      simp only [intake, fileFilter, hm, ne_eq, not_true_eq_false, if_false, ite_false] at h ⊢
      rcases hrec : intake token rest (i + 1)
          (fsWrite fs (pathJoin "uploads" (hexEncode (token i) ++ extname f.originalname))
            f.content) with ⟨fs2, r⟩
      rw [hrec] at h ih
      have hfst : (match (fs2, r) with
          | (fs2, Except.ok ufs) => (fs2, Except.ok ((⟨pathJoin "uploads"
              (hexEncode (token i) ++ extname f.originalname), f.originalname⟩ :
                UploadedFile) :: ufs))
          | (fs2, Except.error e) => (fs2, Except.error e) : FS × Except String
            (List UploadedFile)).1 = fs2 := by
        rcases r with e | ufs <;> rfl
      rw [hfst] at h ⊢
      by_cases hch : fsLookup fs2 p =
          fsLookup (fsWrite fs (pathJoin "uploads"
            (hexEncode (token i) ++ extname f.originalname)) f.content) p
      · rw [hch] at h ⊢
        rw [fsLookup_fsWrite] at h ⊢
        by_cases hp : p = pathJoin "uploads" (hexEncode (token i) ++ extname f.originalname)
        · refine ⟨f, by simp, hm, ?_, ?_⟩
          · simp [hp]
          · rw [hp]
            exact pathJoin_uploads_head _
        · simp [hp] at h
      · obtain ⟨g, hg, hgm, hgl, hgh⟩ := ih hch
        exact ⟨g, by simp [hg], hgm, hgl, hgh⟩
    · simp [intake, fileFilter, hm] at h

/-! ## Handler-level helper lemmas -/

theorem convertHandler_run (oracle : Nat → AttemptOracle) (token : Nat → List (Fin 256))
    (fs : FS) (req : ReqModel) (hne : req.files.isEmpty = false)
    (hdpi : ¬(effectiveDPI req.dpi < 72 ∨ effectiveDPI req.dpi > 2400)) :
    (convertHandler oracle token fs req).fs =
      (convertLoop oracle token (effectiveDPI req.dpi) req.files 0 fs).fs ∧
    (convertHandler oracle token fs req).invocations =
      (convertLoop oracle token (effectiveDPI req.dpi) req.files 0 fs).invocations ∧
    (convertHandler oracle token fs req).directiveWrites =
      (convertLoop oracle token (effectiveDPI req.dpi) req.files 0 fs).directiveWrites ∧
    (convertHandler oracle token fs req).response =
      (match (convertLoop oracle token (effectiveDPI req.dpi) req.files 0 fs).result with
        | .ok results => .ok200 "Files processed successfully" results
        | .error e => .err500 "Internal Server Error" e) := by
  simp only [convertHandler, hne, Bool.false_eq_true, if_false, hdpi, ite_false]
  rcases hL : (convertLoop oracle token (effectiveDPI req.dpi) req.files 0 fs).result with
      e | results <;> simp [hL]

theorem convertHandler_reject (oracle : Nat → AttemptOracle) (token : Nat → List (Fin 256))
    (fs : FS) (req : ReqModel)
    (h : req.files.isEmpty = true ∨ (effectiveDPI req.dpi < 72 ∨ effectiveDPI req.dpi > 2400)) :
    (convertHandler oracle token fs req).fs = fs ∧
    (convertHandler oracle token fs req).invocations = [] ∧
    (convertHandler oracle token fs req).directiveWrites = [] ∧
    ((convertHandler oracle token fs req).response = .badRequest "No files uploaded" ∨
      (convertHandler oracle token fs req).response =
        .badRequest "DPI must be between 72 and 2400") := by
  by_cases hne : req.files.isEmpty
  · simp [convertHandler, hne]
  · rcases h with h | h
    · exact absurd h hne
    · simp [convertHandler, hne, h]

theorem convertHandler_ok_inv (oracle : Nat → AttemptOracle) (token : Nat → List (Fin 256))
    (fs : FS) (req : ReqModel) (m : String) (rs : List ConversionResult)
    (h : (convertHandler oracle token fs req).response = .ok200 m rs) :
    (convertLoop oracle token (effectiveDPI req.dpi) req.files 0 fs).result = .ok rs := by
  by_cases hne : req.files.isEmpty
  · have := (convertHandler_reject oracle token fs req (Or.inl hne)).2.2.2
    rcases this with hr | hr <;> rw [hr] at h <;> exact Response.noConfusion h
  · by_cases hdpi : effectiveDPI req.dpi < 72 ∨ effectiveDPI req.dpi > 2400
    · have := (convertHandler_reject oracle token fs req (Or.inr hdpi)).2.2.2
      rcases this with hr | hr <;> rw [hr] at h <;> exact Response.noConfusion h
    · have hrun := (convertHandler_run oracle token fs req
        (Bool.not_eq_true _ ▸ (by simpa using hne)) hdpi).2.2.2
      rw [hrun] at h
      rcases hL : (convertLoop oracle token (effectiveDPI req.dpi) req.files 0 fs).result with
          e | results
      · rw [hL] at h
        exact Response.noConfusion h
      · rw [hL] at h
        simp only [Response.ok200.injEq] at h
        rw [h.2]

theorem convertHandler_invocations_cases (oracle : Nat → AttemptOracle)
    (token : Nat → List (Fin 256)) (fs : FS) (req : ReqModel) :
    (convertHandler oracle token fs req).invocations = [] ∨
    (convertHandler oracle token fs req).invocations =
      (convertLoop oracle token (effectiveDPI req.dpi) req.files 0 fs).invocations := by
  by_cases hne : req.files.isEmpty
  · exact Or.inl (convertHandler_reject oracle token fs req (Or.inl hne)).2.1
  · by_cases hdpi : effectiveDPI req.dpi < 72 ∨ effectiveDPI req.dpi > 2400
    · exact Or.inl (convertHandler_reject oracle token fs req (Or.inr hdpi)).2.1
    · exact Or.inr (convertHandler_run oracle token fs req (by simpa using hne) hdpi).2.1

theorem convertHandler_directiveWrites_cases (oracle : Nat → AttemptOracle)
    (token : Nat → List (Fin 256)) (fs : FS) (req : ReqModel) :
    (convertHandler oracle token fs req).directiveWrites = [] ∨
    (convertHandler oracle token fs req).directiveWrites =
      (convertLoop oracle token (effectiveDPI req.dpi) req.files 0 fs).directiveWrites := by
  by_cases hne : req.files.isEmpty
  · exact Or.inl (convertHandler_reject oracle token fs req (Or.inl hne)).2.2.1
  · by_cases hdpi : effectiveDPI req.dpi < 72 ∨ effectiveDPI req.dpi > 2400
    · exact Or.inl (convertHandler_reject oracle token fs req (Or.inr hdpi)).2.2.1
    · exact Or.inr (convertHandler_run oracle token fs req (by simpa using hne) hdpi).2.2.1

/-! ## Directive-content lemmas (for the `psContent` claim) -/

theorem occursIn_expand_right (pat s t : String) (h : occursIn pat s) :
    occursIn pat (s ++ t) := by
  obtain ⟨a, b, hab⟩ := h
  exact ⟨a, b ++ t.data, by rw [String.data_append, ← hab]; simp⟩

theorem occursIn_expand_left (pat s t : String) (h : occursIn pat t) :
    occursIn pat (s ++ t) := by
  obtain ⟨a, b, hab⟩ := h
  exact ⟨s.data ++ a, b, by rw [String.data_append, ← hab]; simp⟩

theorem occursIn_psPart0_lift (pat : String) (h : occursIn pat psPart0) (d : Int) :
    occursIn pat (psContent d) := by
  unfold psContent
  exact occursIn_expand_right _ _ _ (occursIn_expand_right _ _ _
    (occursIn_expand_right _ _ _ (occursIn_expand_right _ _ _
      (occursIn_expand_right _ _ _ (occursIn_expand_right _ _ _ h)))))

theorem occursIn_psPart3_lift (pat : String) (h : occursIn pat psPart3) (d : Int) :
    occursIn pat (psContent d) := by
  unfold psContent
  exact occursIn_expand_left _ _ _ h

theorem infixOfParts {α : Type} (x y s t : List α) (hx : x <:+ s)
    (hy : y <+: t) : (x ++ y) <:+: (s ++ t) := by
  obtain ⟨a, ha⟩ := hx
  obtain ⟨b, hb⟩ := hy
  exact ⟨a, b, by rw [← ha, ← hb]; simp [List.append_assoc]⟩

theorem infix_grow_left {α : Type} {x t : List α} (s : List α) (h : x <:+: t) :
    x <:+: s ++ t := h.trans (List.suffix_append s t).isInfix

theorem occursIn_part0_color_downsample_type : occursIn "/ColorImageDownsampleType /None" psPart0 := by
  show ("/ColorImageDownsampleType /None" : String).data <:+: psPart0.data
  simp only [psPart0, String.data_append]
  exact ((by decide : ("/ColorImageDownsampleType /None" : String).data <:+: ("\n                        /ColorImageDownsampleType /None" : String).data)).trans
    (((((List.suffix_append _ _).isInfix).trans (List.prefix_append _ _).isInfix).trans (List.prefix_append _ _).isInfix).trans (List.prefix_append _ _).isInfix)

theorem occursIn_part0_gray_downsample_type : occursIn "/GrayImageDownsampleType /None" psPart0 := by
  show ("/GrayImageDownsampleType /None" : String).data <:+: psPart0.data
  simp only [psPart0, String.data_append]
  exact ((by decide : ("/GrayImageDownsampleType /None" : String).data <:+: ("\n                        /GrayImageDownsampleType /None" : String).data)).trans
    ((((List.suffix_append _ _).isInfix).trans (List.prefix_append _ _).isInfix).trans (List.prefix_append _ _).isInfix)

theorem occursIn_part0_mono_downsample_type : occursIn "/MonoImageDownsampleType /None" psPart0 := by
  show ("/MonoImageDownsampleType /None" : String).data <:+: psPart0.data
  simp only [psPart0, String.data_append]
  exact ((by decide : ("/MonoImageDownsampleType /None" : String).data <:+: ("\n                        /MonoImageDownsampleType /None" : String).data)).trans
    (((List.suffix_append _ _).isInfix).trans (List.prefix_append _ _).isInfix)

theorem occursIn_part0_title : occursIn "/Title (Set DPI)" psPart0 := by
  show ("/Title (Set DPI)" : String).data <:+: psPart0.data
  simp only [psPart0, String.data_append]
  exact ((by decide : ("/Title (Set DPI)" : String).data <:+: ("\n                    /Title (Set DPI)" : String).data)).trans
    ((((((((((((((((((((((((List.suffix_append _ _).isInfix).trans (List.prefix_append _ _).isInfix).trans (List.prefix_append _ _).isInfix).trans (List.prefix_append _ _).isInfix).trans (List.prefix_append _ _).isInfix).trans (List.prefix_append _ _).isInfix).trans (List.prefix_append _ _).isInfix).trans (List.prefix_append _ _).isInfix).trans (List.prefix_append _ _).isInfix).trans (List.prefix_append _ _).isInfix).trans (List.prefix_append _ _).isInfix).trans (List.prefix_append _ _).isInfix).trans (List.prefix_append _ _).isInfix).trans (List.prefix_append _ _).isInfix).trans (List.prefix_append _ _).isInfix).trans (List.prefix_append _ _).isInfix).trans (List.prefix_append _ _).isInfix).trans (List.prefix_append _ _).isInfix).trans (List.prefix_append _ _).isInfix).trans (List.prefix_append _ _).isInfix).trans (List.prefix_append _ _).isInfix).trans (List.prefix_append _ _).isInfix).trans (List.prefix_append _ _).isInfix)

theorem occursIn_part0_author : occursIn "/Author (PDF Processor)" psPart0 := by
  show ("/Author (PDF Processor)" : String).data <:+: psPart0.data
  simp only [psPart0, String.data_append]
  exact ((by decide : ("/Author (PDF Processor)" : String).data <:+: ("\n                    /Author (PDF Processor)" : String).data)).trans
    (((((((((((((((((((((((List.suffix_append _ _).isInfix).trans (List.prefix_append _ _).isInfix).trans (List.prefix_append _ _).isInfix).trans (List.prefix_append _ _).isInfix).trans (List.prefix_append _ _).isInfix).trans (List.prefix_append _ _).isInfix).trans (List.prefix_append _ _).isInfix).trans (List.prefix_append _ _).isInfix).trans (List.prefix_append _ _).isInfix).trans (List.prefix_append _ _).isInfix).trans (List.prefix_append _ _).isInfix).trans (List.prefix_append _ _).isInfix).trans (List.prefix_append _ _).isInfix).trans (List.prefix_append _ _).isInfix).trans (List.prefix_append _ _).isInfix).trans (List.prefix_append _ _).isInfix).trans (List.prefix_append _ _).isInfix).trans (List.prefix_append _ _).isInfix).trans (List.prefix_append _ _).isInfix).trans (List.prefix_append _ _).isInfix).trans (List.prefix_append _ _).isInfix).trans (List.prefix_append _ _).isInfix)

theorem occursIn_part0_creator : occursIn "/Creator (PDF DPI Setter)" psPart0 := by
  show ("/Creator (PDF DPI Setter)" : String).data <:+: psPart0.data
  simp only [psPart0, String.data_append]
  exact ((by decide : ("/Creator (PDF DPI Setter)" : String).data <:+: ("\n                    /Creator (PDF DPI Setter)" : String).data)).trans
    ((((((((((((((((((((((List.suffix_append _ _).isInfix).trans (List.prefix_append _ _).isInfix).trans (List.prefix_append _ _).isInfix).trans (List.prefix_append _ _).isInfix).trans (List.prefix_append _ _).isInfix).trans (List.prefix_append _ _).isInfix).trans (List.prefix_append _ _).isInfix).trans (List.prefix_append _ _).isInfix).trans (List.prefix_append _ _).isInfix).trans (List.prefix_append _ _).isInfix).trans (List.prefix_append _ _).isInfix).trans (List.prefix_append _ _).isInfix).trans (List.prefix_append _ _).isInfix).trans (List.prefix_append _ _).isInfix).trans (List.prefix_append _ _).isInfix).trans (List.prefix_append _ _).isInfix).trans (List.prefix_append _ _).isInfix).trans (List.prefix_append _ _).isInfix).trans (List.prefix_append _ _).isInfix).trans (List.prefix_append _ _).isInfix).trans (List.prefix_append _ _).isInfix)

theorem occursIn_part0_producer : occursIn "/Producer (Ghostscript)" psPart0 := by
  show ("/Producer (Ghostscript)" : String).data <:+: psPart0.data
  simp only [psPart0, String.data_append]
  exact ((by decide : ("/Producer (Ghostscript)" : String).data <:+: ("\n                    /Producer (Ghostscript)" : String).data)).trans
    (((((((((((((((((((((List.suffix_append _ _).isInfix).trans (List.prefix_append _ _).isInfix).trans (List.prefix_append _ _).isInfix).trans (List.prefix_append _ _).isInfix).trans (List.prefix_append _ _).isInfix).trans (List.prefix_append _ _).isInfix).trans (List.prefix_append _ _).isInfix).trans (List.prefix_append _ _).isInfix).trans (List.prefix_append _ _).isInfix).trans (List.prefix_append _ _).isInfix).trans (List.prefix_append _ _).isInfix).trans (List.prefix_append _ _).isInfix).trans (List.prefix_append _ _).isInfix).trans (List.prefix_append _ _).isInfix).trans (List.prefix_append _ _).isInfix).trans (List.prefix_append _ _).isInfix).trans (List.prefix_append _ _).isInfix).trans (List.prefix_append _ _).isInfix).trans (List.prefix_append _ _).isInfix).trans (List.prefix_append _ _).isInfix)

theorem occursIn_part0_moddate : occursIn "/ModDate (D:20240214)" psPart0 := by
  show ("/ModDate (D:20240214)" : String).data <:+: psPart0.data
  simp only [psPart0, String.data_append]
  exact ((by decide : ("/ModDate (D:20240214)" : String).data <:+: ("\n                    /ModDate (D:20240214)" : String).data)).trans
    ((((((((((((((((((((List.suffix_append _ _).isInfix).trans (List.prefix_append _ _).isInfix).trans (List.prefix_append _ _).isInfix).trans (List.prefix_append _ _).isInfix).trans (List.prefix_append _ _).isInfix).trans (List.prefix_append _ _).isInfix).trans (List.prefix_append _ _).isInfix).trans (List.prefix_append _ _).isInfix).trans (List.prefix_append _ _).isInfix).trans (List.prefix_append _ _).isInfix).trans (List.prefix_append _ _).isInfix).trans (List.prefix_append _ _).isInfix).trans (List.prefix_append _ _).isInfix).trans (List.prefix_append _ _).isInfix).trans (List.prefix_append _ _).isInfix).trans (List.prefix_append _ _).isInfix).trans (List.prefix_append _ _).isInfix).trans (List.prefix_append _ _).isInfix).trans (List.prefix_append _ _).isInfix)

theorem occursIn_part0_creationdate : occursIn "/CreationDate (D:20240214)" psPart0 := by
  show ("/CreationDate (D:20240214)" : String).data <:+: psPart0.data
  simp only [psPart0, String.data_append]
  exact ((by decide : ("/CreationDate (D:20240214)" : String).data <:+: ("\n                    /CreationDate (D:20240214)" : String).data)).trans
    (((((((((((((((((((List.suffix_append _ _).isInfix).trans (List.prefix_append _ _).isInfix).trans (List.prefix_append _ _).isInfix).trans (List.prefix_append _ _).isInfix).trans (List.prefix_append _ _).isInfix).trans (List.prefix_append _ _).isInfix).trans (List.prefix_append _ _).isInfix).trans (List.prefix_append _ _).isInfix).trans (List.prefix_append _ _).isInfix).trans (List.prefix_append _ _).isInfix).trans (List.prefix_append _ _).isInfix).trans (List.prefix_append _ _).isInfix).trans (List.prefix_append _ _).isInfix).trans (List.prefix_append _ _).isInfix).trans (List.prefix_append _ _).isInfix).trans (List.prefix_append _ _).isInfix).trans (List.prefix_append _ _).isInfix).trans (List.prefix_append _ _).isInfix)

theorem occursIn_part0_subject : occursIn "/Subject (DPI Modified PDF)" psPart0 := by
  show ("/Subject (DPI Modified PDF)" : String).data <:+: psPart0.data
  simp only [psPart0, String.data_append]
  exact ((by decide : ("/Subject (DPI Modified PDF)" : String).data <:+: ("\n                    /Subject (DPI Modified PDF)" : String).data)).trans
    ((((((((((((((((((List.suffix_append _ _).isInfix).trans (List.prefix_append _ _).isInfix).trans (List.prefix_append _ _).isInfix).trans (List.prefix_append _ _).isInfix).trans (List.prefix_append _ _).isInfix).trans (List.prefix_append _ _).isInfix).trans (List.prefix_append _ _).isInfix).trans (List.prefix_append _ _).isInfix).trans (List.prefix_append _ _).isInfix).trans (List.prefix_append _ _).isInfix).trans (List.prefix_append _ _).isInfix).trans (List.prefix_append _ _).isInfix).trans (List.prefix_append _ _).isInfix).trans (List.prefix_append _ _).isInfix).trans (List.prefix_append _ _).isInfix).trans (List.prefix_append _ _).isInfix).trans (List.prefix_append _ _).isInfix)

theorem occursIn_part0_keywords : occursIn "/Keywords (DPI, PDF)" psPart0 := by
  show ("/Keywords (DPI, PDF)" : String).data <:+: psPart0.data
  simp only [psPart0, String.data_append]
  exact ((by decide : ("/Keywords (DPI, PDF)" : String).data <:+: ("\n                    /Keywords (DPI, PDF)" : String).data)).trans
    (((((((((((((((((List.suffix_append _ _).isInfix).trans (List.prefix_append _ _).isInfix).trans (List.prefix_append _ _).isInfix).trans (List.prefix_append _ _).isInfix).trans (List.prefix_append _ _).isInfix).trans (List.prefix_append _ _).isInfix).trans (List.prefix_append _ _).isInfix).trans (List.prefix_append _ _).isInfix).trans (List.prefix_append _ _).isInfix).trans (List.prefix_append _ _).isInfix).trans (List.prefix_append _ _).isInfix).trans (List.prefix_append _ _).isInfix).trans (List.prefix_append _ _).isInfix).trans (List.prefix_append _ _).isInfix).trans (List.prefix_append _ _).isInfix).trans (List.prefix_append _ _).isInfix)

theorem occursIn_part3_downsample_color : occursIn "/DownsampleColorImages false" psPart3 := by
  show ("/DownsampleColorImages false" : String).data <:+: psPart3.data
  simp only [psPart3, String.data_append]
  exact ((by decide : ("/DownsampleColorImages false" : String).data <:+: ("\n                        /DownsampleColorImages false" : String).data)).trans
    ((((((((((((((((((((List.infix_rfl).trans (List.prefix_append _ _).isInfix).trans (List.prefix_append _ _).isInfix).trans (List.prefix_append _ _).isInfix).trans (List.prefix_append _ _).isInfix).trans (List.prefix_append _ _).isInfix).trans (List.prefix_append _ _).isInfix).trans (List.prefix_append _ _).isInfix).trans (List.prefix_append _ _).isInfix).trans (List.prefix_append _ _).isInfix).trans (List.prefix_append _ _).isInfix).trans (List.prefix_append _ _).isInfix).trans (List.prefix_append _ _).isInfix).trans (List.prefix_append _ _).isInfix).trans (List.prefix_append _ _).isInfix).trans (List.prefix_append _ _).isInfix).trans (List.prefix_append _ _).isInfix).trans (List.prefix_append _ _).isInfix).trans (List.prefix_append _ _).isInfix).trans (List.prefix_append _ _).isInfix)

theorem occursIn_part3_downsample_gray : occursIn "/DownsampleGrayImages false" psPart3 := by
  show ("/DownsampleGrayImages false" : String).data <:+: psPart3.data
  simp only [psPart3, String.data_append]
  exact ((by decide : ("/DownsampleGrayImages false" : String).data <:+: ("\n                        /DownsampleGrayImages false" : String).data)).trans
    ((((((((((((((((((((List.suffix_append _ _).isInfix).trans (List.prefix_append _ _).isInfix).trans (List.prefix_append _ _).isInfix).trans (List.prefix_append _ _).isInfix).trans (List.prefix_append _ _).isInfix).trans (List.prefix_append _ _).isInfix).trans (List.prefix_append _ _).isInfix).trans (List.prefix_append _ _).isInfix).trans (List.prefix_append _ _).isInfix).trans (List.prefix_append _ _).isInfix).trans (List.prefix_append _ _).isInfix).trans (List.prefix_append _ _).isInfix).trans (List.prefix_append _ _).isInfix).trans (List.prefix_append _ _).isInfix).trans (List.prefix_append _ _).isInfix).trans (List.prefix_append _ _).isInfix).trans (List.prefix_append _ _).isInfix).trans (List.prefix_append _ _).isInfix).trans (List.prefix_append _ _).isInfix)

theorem occursIn_part3_downsample_mono : occursIn "/DownsampleMonoImages false" psPart3 := by
  show ("/DownsampleMonoImages false" : String).data <:+: psPart3.data
  simp only [psPart3, String.data_append]
  exact ((by decide : ("/DownsampleMonoImages false" : String).data <:+: ("\n                        /DownsampleMonoImages false" : String).data)).trans
    (((((((((((((((((((List.suffix_append _ _).isInfix).trans (List.prefix_append _ _).isInfix).trans (List.prefix_append _ _).isInfix).trans (List.prefix_append _ _).isInfix).trans (List.prefix_append _ _).isInfix).trans (List.prefix_append _ _).isInfix).trans (List.prefix_append _ _).isInfix).trans (List.prefix_append _ _).isInfix).trans (List.prefix_append _ _).isInfix).trans (List.prefix_append _ _).isInfix).trans (List.prefix_append _ _).isInfix).trans (List.prefix_append _ _).isInfix).trans (List.prefix_append _ _).isInfix).trans (List.prefix_append _ _).isInfix).trans (List.prefix_append _ _).isInfix).trans (List.prefix_append _ _).isInfix).trans (List.prefix_append _ _).isInfix).trans (List.prefix_append _ _).isInfix)

theorem occursIn_part3_color_filter : occursIn "/ColorImageFilter /FlateEncode" psPart3 := by
  show ("/ColorImageFilter /FlateEncode" : String).data <:+: psPart3.data
  simp only [psPart3, String.data_append]
  exact ((by decide : ("/ColorImageFilter /FlateEncode" : String).data <:+: ("\n                        /ColorImageFilter /FlateEncode" : String).data)).trans
    ((((((((((((((((List.suffix_append _ _).isInfix).trans (List.prefix_append _ _).isInfix).trans (List.prefix_append _ _).isInfix).trans (List.prefix_append _ _).isInfix).trans (List.prefix_append _ _).isInfix).trans (List.prefix_append _ _).isInfix).trans (List.prefix_append _ _).isInfix).trans (List.prefix_append _ _).isInfix).trans (List.prefix_append _ _).isInfix).trans (List.prefix_append _ _).isInfix).trans (List.prefix_append _ _).isInfix).trans (List.prefix_append _ _).isInfix).trans (List.prefix_append _ _).isInfix).trans (List.prefix_append _ _).isInfix).trans (List.prefix_append _ _).isInfix)

theorem occursIn_part3_gray_filter : occursIn "/GrayImageFilter /FlateEncode" psPart3 := by
  show ("/GrayImageFilter /FlateEncode" : String).data <:+: psPart3.data
  simp only [psPart3, String.data_append]
  exact ((by decide : ("/GrayImageFilter /FlateEncode" : String).data <:+: ("\n                        /GrayImageFilter /FlateEncode" : String).data)).trans
    (((((((((((((((List.suffix_append _ _).isInfix).trans (List.prefix_append _ _).isInfix).trans (List.prefix_append _ _).isInfix).trans (List.prefix_append _ _).isInfix).trans (List.prefix_append _ _).isInfix).trans (List.prefix_append _ _).isInfix).trans (List.prefix_append _ _).isInfix).trans (List.prefix_append _ _).isInfix).trans (List.prefix_append _ _).isInfix).trans (List.prefix_append _ _).isInfix).trans (List.prefix_append _ _).isInfix).trans (List.prefix_append _ _).isInfix).trans (List.prefix_append _ _).isInfix).trans (List.prefix_append _ _).isInfix)

theorem occursIn_part3_mono_filter : occursIn "/MonoImageFilter /CCITTFaxEncode" psPart3 := by
  show ("/MonoImageFilter /CCITTFaxEncode" : String).data <:+: psPart3.data
  simp only [psPart3, String.data_append]
  exact ((by decide : ("/MonoImageFilter /CCITTFaxEncode" : String).data <:+: ("\n                        /MonoImageFilter /CCITTFaxEncode" : String).data)).trans
    ((((((((((((((List.suffix_append _ _).isInfix).trans (List.prefix_append _ _).isInfix).trans (List.prefix_append _ _).isInfix).trans (List.prefix_append _ _).isInfix).trans (List.prefix_append _ _).isInfix).trans (List.prefix_append _ _).isInfix).trans (List.prefix_append _ _).isInfix).trans (List.prefix_append _ _).isInfix).trans (List.prefix_append _ _).isInfix).trans (List.prefix_append _ _).isInfix).trans (List.prefix_append _ _).isInfix).trans (List.prefix_append _ _).isInfix).trans (List.prefix_append _ _).isInfix)

theorem colorRes_suffix_part0 : ("/ColorImageResolution " : String).data <:+ psPart0.data := by
  simp only [psPart0, String.data_append]
  exact ((by decide : ("/ColorImageResolution " : String).data <:+
    ("\n                        /ColorImageResolution " : String).data)).trans (List.suffix_append _ _)

theorem occursIn_res_color (d : Int) :
    occursIn ("/ColorImageResolution " ++ toString d) (psContent d) := by
  show ("/ColorImageResolution " ++ toString d).data <:+: (psContent d).data
  simp only [psContent, String.data_append, List.append_assoc]
  exact infixOfParts _ _ _ _ colorRes_suffix_part0 (List.prefix_append _ _)

theorem occursIn_res_gray (d : Int) :
    occursIn ("/GrayImageResolution " ++ toString d) (psContent d) := by
  show ("/GrayImageResolution " ++ toString d).data <:+: (psContent d).data
  simp only [psContent, String.data_append, List.append_assoc]
  exact infix_grow_left _ (infix_grow_left _ (infixOfParts _ _ _ _
    (by decide : ("/GrayImageResolution " : String).data <:+ psPart1.data)
    (List.prefix_append _ _)))

theorem occursIn_res_mono (d : Int) :
    occursIn ("/MonoImageResolution " ++ toString d) (psContent d) := by
  show ("/MonoImageResolution " ++ toString d).data <:+: (psContent d).data
  simp only [psContent, String.data_append, List.append_assoc]
  exact infix_grow_left _ (infix_grow_left _ (infix_grow_left _ (infix_grow_left _
    (infixOfParts _ _ _ _
      (by decide : ("/MonoImageResolution " : String).data <:+ psPart2.data)
      (List.prefix_append _ _)))))

/-! ## Concrete fixtures for witnesses and counterexamples -/

def fileA : UploadedFile :=
  ⟨"uploads/aaaaaaaaaaaaaaaaaaaaaaaaaaaaaaaa.pdf", "a.pdf"⟩

def fileB : UploadedFile :=
  ⟨"uploads/bbbbbbbbbbbbbbbbbbbbbbbbbbbbbbbb.pdf", "b.pdf"⟩

/-- A constant random-byte stream (collisions allowed). -/
def zeroToken : Nat → List (Fin 256) := fun _ => List.replicate 16 0

/-- An injective random-byte stream: draw `i` has length `i + 1`. -/
def lenToken : Nat → List (Fin 256) := fun i => List.replicate (i + 1) 0

theorem lenToken_inj : ∀ i j, lenToken i = lenToken j → i = j := by
  intro i j h
  have := congrArg List.length h
  simpa [lenToken] using this

/-! ## The claims -/

/-- C1 (amended): for every staged input file whose conversion attempt the
per-file loop actually starts, once the request completes the staged file no
longer exists, and the shared directive file does not exist either (given it
did not pre-exist).  The loop performs exactly one directive write per
attempt, so the attempted files are the first `directiveWrites.length`
files of the batch.  The claim as frozen — every staged file of the request
is deleted on completion — fails on the code: staged files of the batch that
the loop never reaches (those after a failed file, or all of them when the
DPI range check rejects) are never unlinked. -/
theorem convert_cleanup_attempted (oracle : Nat → AttemptOracle)
    (token : Nat → List (Fin 256)) (fs : FS) (req : ReqModel)
    (hpaths : ∀ f ∈ req.files, f.path.data.head? = some 'u' ∧ f.path ≠ psFilePath)
    (hps : fsLookup fs psFilePath = none) :
    (∀ f ∈ req.files.take (convertHandler oracle token fs req).directiveWrites.length,
        fsLookup (convertHandler oracle token fs req).fs f.path = none) ∧
    fsLookup (convertHandler oracle token fs req).fs psFilePath = none := by
  by_cases hne : req.files.isEmpty
  · obtain ⟨hfs, _, hdw, _⟩ := convertHandler_reject oracle token fs req (Or.inl hne)
    rw [hfs, hdw]
    exact ⟨by simp, hps⟩
  · by_cases hdpi : effectiveDPI req.dpi < 72 ∨ effectiveDPI req.dpi > 2400
    · obtain ⟨hfs, _, hdw, _⟩ := convertHandler_reject oracle token fs req (Or.inr hdpi)
      rw [hfs, hdw]
      exact ⟨by simp, hps⟩
    · obtain ⟨hfs, _, hdw, _⟩ := convertHandler_run oracle token fs req (by simpa using hne) hdpi
      rw [hfs, hdw]
      exact ⟨convertLoop_staged_gone oracle token (effectiveDPI req.dpi) req.files 0 fs hpaths,
        convertLoop_psFile_none oracle token (effectiveDPI req.dpi) req.files 0 fs hps⟩

/-- C1 witness: a one-file request with a successful engine run; the staged
file and the directive file are both gone afterwards. -/
theorem convert_cleanup_attempted_witness :
    (∀ f ∈ ([fileA] : List UploadedFile), f.path.data.head? = some 'u' ∧ f.path ≠ psFilePath) ∧
    fsLookup ([(fileA.path, "A")] : FS) psFilePath = none ∧
    ((∀ f ∈ ([fileA] : List UploadedFile).take
        (convertHandler (fun _ => ⟨true, some "OUT"⟩) zeroToken
          ([(fileA.path, "A")] : FS) ⟨[fileA], some "300"⟩).directiveWrites.length,
        fsLookup (convertHandler (fun _ => ⟨true, some "OUT"⟩) zeroToken
          ([(fileA.path, "A")] : FS) ⟨[fileA], some "300"⟩).fs f.path = none) ∧
      fsLookup (convertHandler (fun _ => ⟨true, some "OUT"⟩) zeroToken
        ([(fileA.path, "A")] : FS) ⟨[fileA], some "300"⟩).fs psFilePath = none) :=
  ⟨by decide, by decide,
    convert_cleanup_attempted (fun _ => ⟨true, some "OUT"⟩) zeroToken
      ([(fileA.path, "A")] : FS) ⟨[fileA], some "300"⟩ (by decide) (by decide)⟩

/-- C1 counterexample: a two-file batch whose first file fails in the
engine.  The request completes with a single 500 response, yet the second
file's staged copy is still on disk — refuting the frozen claim that every
staged input file of the request is deleted once the request completes. -/
theorem convert_cleanup_counterexample :
    (convertHandler (fun _ => ⟨true, none⟩) zeroToken
        ([(fileA.path, "A"), (fileB.path, "B")] : FS)
        ⟨[fileA, fileB], some "300"⟩).response =
      .err500 "Internal Server Error" "Failed to set PDF DPI" ∧
    fsLookup (convertHandler (fun _ => ⟨true, none⟩) zeroToken
        ([(fileA.path, "A"), (fileB.path, "B")] : FS)
        ⟨[fileA, fileB], some "300"⟩).fs fileB.path = some "B" := by
  constructor <;> decide

/-- C2: in a batch where the files before `bad` all convert and `bad`'s
attempt fails, the handler answers a single 500 error body (never a success
shape), at most one invocation beyond the successful ones is made — none for
the files after `bad` —, every invocation's input is one of the first
`k` files, and the outputs already produced for the earlier files remain on
disk while the error response does not reference them (the 500 constructor
carries no file list). -/
theorem convert_batch_failure (oracle : Nat → AttemptOracle)
    (token : Nat → List (Fin 256)) (fs : FS) (good : List UploadedFile)
    (bad : UploadedFile) (rest : List UploadedFile) (dpiField : Option String)
    (bs : Nat → String)
    (htok : ∀ i j, token i = token j → i = j)
    (hpaths : ∀ f ∈ good ++ bad :: rest, f.path.data.head? = some 'u')
    (hdpi : ¬(effectiveDPI dpiField < 72 ∨ effectiveDPI dpiField > 2400))
    (hgood : ∀ j, j < good.length → oracle j = ⟨true, some (bs j)⟩)
    (hbad : (oracle good.length).writeOk = false ∨
      (oracle good.length).engineOut = none) :
    (∃ e, (convertHandler oracle token fs
        ⟨good ++ bad :: rest, dpiField⟩).response = .err500 "Internal Server Error" e) ∧
    (∀ m rs, (convertHandler oracle token fs
        ⟨good ++ bad :: rest, dpiField⟩).response ≠ .ok200 m rs) ∧
    (convertHandler oracle token fs
        ⟨good ++ bad :: rest, dpiField⟩).invocations.length ≤ good.length + 1 ∧
    (∀ inv ∈ (convertHandler oracle token fs
        ⟨good ++ bad :: rest, dpiField⟩).invocations,
      inv.inputPath ∈ good.map (·.path) ++ [bad.path]) ∧
    (∀ j, j < good.length →
      fsLookup (convertHandler oracle token fs
        ⟨good ++ bad :: rest, dpiField⟩).fs (outputPathOf token j) = some (bs j)) := by
  have hne : (good ++ bad :: rest).isEmpty = false := by cases good <;> rfl
  obtain ⟨hfs, hinv, _, hresp⟩ := convertHandler_run oracle token fs
    ⟨good ++ bad :: rest, dpiField⟩ hne hdpi
  obtain ⟨e, he, hlen, hinputs, houts⟩ := convertLoop_fail oracle token
    (effectiveDPI dpiField) bs htok good bad rest 0 fs
    (by intro j hj; simpa using hgood j hj)
    (by simpa using hbad)
    hpaths
  refine ⟨⟨e, ?_⟩, ?_, ?_, ?_, ?_⟩
  · rw [hresp, he]
  · intro m rs h
    rw [hresp, he] at h
    exact Response.noConfusion h
  · rw [hinv]
    exact hlen
  · intro inv hinv2
    rw [hinv] at hinv2
    exact hinputs inv hinv2
  · intro j hj
    rw [hfs]
    simpa using houts j hj

/-- C2 witness: a single-file batch (`k = N = 1`) whose only file fails;
the response is the 500 error and no success shape. -/
theorem convert_batch_failure_witness :
    (∀ f ∈ ([] : List UploadedFile) ++ fileA :: ([] : List UploadedFile),
      f.path.data.head? = some 'u') ∧
    ¬(effectiveDPI (some "300") < 72 ∨ effectiveDPI (some "300") > 2400) ∧
    (((fun _ => ⟨true, none⟩ : Nat → AttemptOracle) ([] : List UploadedFile).length).writeOk
        = false ∨
      ((fun _ => ⟨true, none⟩ : Nat → AttemptOracle) ([] : List UploadedFile).length).engineOut
        = none) ∧
    (∃ e, (convertHandler (fun _ => ⟨true, none⟩) lenToken ([] : FS)
        ⟨([] : List UploadedFile) ++ fileA :: ([] : List UploadedFile),
          some "300"⟩).response = .err500 "Internal Server Error" e) :=
  ⟨by decide, by decide, Or.inr rfl,
    (convert_batch_failure (fun _ => ⟨true, none⟩) lenToken ([] : FS) [] fileA []
      (some "300") (fun _ => "OUT") lenToken_inj (by decide) (by decide)
      (by intro j hj; simp at hj) (Or.inr rfl)).1⟩

/-- C3 (amended): a `dpi` form value that `parseInt` reads as a nonzero
integer below 72 or above 2400 makes the handler answer HTTP 400
`DPI must be between 72 and 2400` with no engine invocation and the
filesystem untouched.  The frozen claim fails for the value `"0"`: since the
code computes `parseInt(req.body.dpi) || 300` and `0` is falsy, a dpi of
`"0"` (an integer strictly below 72) is silently replaced by the default 300
and the conversion proceeds. -/
theorem convert_dpi_range_reject (oracle : Nat → AttemptOracle)
    (token : Nat → List (Fin 256)) (fs : FS) (files : List UploadedFile)
    (dpiField : Option String) (n : Int) (hne : files ≠ [])
    (hparse : parseIntJS dpiField = some n) (hn0 : n ≠ 0)
    (hrange : n < 72 ∨ n > 2400) :
    (convertHandler oracle token fs ⟨files, dpiField⟩).response =
      .badRequest "DPI must be between 72 and 2400" ∧
    (convertHandler oracle token fs ⟨files, dpiField⟩).invocations = [] ∧
    (convertHandler oracle token fs ⟨files, dpiField⟩).fs = fs := by
  have heff : effectiveDPI dpiField = n := by simp [effectiveDPI, hparse, hn0]
  have hisEmpty : files.isEmpty = false := by
    cases files with
    | nil => exact absurd rfl hne
    | cons a l => rfl
  refine ⟨?_, ?_, ?_⟩ <;>
    simp [convertHandler, hisEmpty, heff, hrange]

/-- C3 witness: dpi `"5000"` with a nonempty batch is rejected with the 400
message and zero invocations. -/
theorem convert_dpi_range_reject_witness :
    ([fileA] : List UploadedFile) ≠ [] ∧
    parseIntJS (some "5000") = some 5000 ∧ (5000 : Int) ≠ 0 ∧
    ((5000 : Int) < 72 ∨ (5000 : Int) > 2400) ∧
    ((convertHandler (fun _ => ⟨true, some "OUT"⟩) zeroToken ([] : FS)
        ⟨[fileA], some "5000"⟩).response =
      .badRequest "DPI must be between 72 and 2400" ∧
    (convertHandler (fun _ => ⟨true, some "OUT"⟩) zeroToken ([] : FS)
        ⟨[fileA], some "5000"⟩).invocations = [] ∧
    (convertHandler (fun _ => ⟨true, some "OUT"⟩) zeroToken ([] : FS)
        ⟨[fileA], some "5000"⟩).fs = ([] : FS)) :=
  ⟨by decide, by decide, by decide, Or.inr (by decide),
    convert_dpi_range_reject (fun _ => ⟨true, some "OUT"⟩) zeroToken ([] : FS)
      [fileA] (some "5000") 5000 (by decide) (by decide) (by decide)
      (Or.inr (by decide))⟩

/-- C3 counterexample: the dpi form value `"0"` denotes the integer 0, which
is strictly below 72, yet the request is not rejected: the handler runs the
engine once (one invocation) and answers 200 with the default DPI 300 —
refuting the frozen claim that every below-range dpi value yields a 400 with
no subprocess. -/
theorem convert_dpi_zero_counterexample :
    parseIntJS (some "0") = some 0 ∧ (0 : Int) < 72 ∧
    (convertHandler (fun _ => ⟨true, some "OUT"⟩) zeroToken
        ([(fileA.path, "A")] : FS) ⟨[fileA], some "0"⟩).response =
      .ok200 "Files processed successfully"
        [⟨"a.pdf", "00000000000000000000000000000000.pdf",
          "/output/00000000000000000000000000000000.pdf", 300⟩] ∧
    (convertHandler (fun _ => ⟨true, some "OUT"⟩) zeroToken
        ([(fileA.path, "A")] : FS) ⟨[fileA], some "0"⟩).invocations.length = 1 := by
  refine ⟨rfl, by decide, ?_, ?_⟩ <;> decide

/-- C4: when the `dpi` form field is missing or does not parse to a number
(`parseInt` gives `NaN`), the effective DPI is exactly 300: the handler
passes 300 to every engine invocation and every result of a 200 response
reports `dpi = 300`. -/
theorem convert_default_dpi (oracle : Nat → AttemptOracle)
    (token : Nat → List (Fin 256)) (fs : FS) (req : ReqModel)
    (hparse : parseIntJS req.dpi = none) :
    effectiveDPI req.dpi = 300 ∧
    (∀ inv ∈ (convertHandler oracle token fs req).invocations,
      inv.targetDPI = 300) ∧
    (∀ m rs, (convertHandler oracle token fs req).response = .ok200 m rs →
      ∀ r ∈ rs, r.dpi = 300) := by
  have heff : effectiveDPI req.dpi = 300 := by simp [effectiveDPI, hparse]
  refine ⟨heff, ?_, ?_⟩
  · intro inv hinv
    rcases convertHandler_invocations_cases oracle token fs req with h | h
    · rw [h] at hinv
      simp at hinv
    · rw [h] at hinv
      have := convertLoop_invocations_dpi oracle token (effectiveDPI req.dpi)
        req.files 0 fs inv hinv
      rw [heff] at this
      exact this
  · intro m rs hok r hr
    have hL := convertHandler_ok_inv oracle token fs req m rs hok
    obtain ⟨j, _, _, _, _, hdpi⟩ := convertLoop_ok_mem oracle token
      (effectiveDPI req.dpi) req.files 0 fs rs hL r hr
    rw [hdpi, heff]

/-- C4 witness: dpi field `"abc"` parses to `NaN`; the effective DPI is 300
and the one result reports 300. -/
theorem convert_default_dpi_witness :
    parseIntJS (some "abc") = none ∧
    effectiveDPI (some "abc") = 300 ∧
    (∀ inv ∈ (convertHandler (fun _ => ⟨true, some "OUT"⟩) zeroToken ([] : FS)
        ⟨[fileA], some "abc"⟩).invocations, inv.targetDPI = 300) :=
  ⟨by decide, (convert_default_dpi (fun _ => ⟨true, some "OUT"⟩) zeroToken ([] : FS)
      ⟨[fileA], some "abc"⟩ (by decide)).1,
    (convert_default_dpi (fun _ => ⟨true, some "OUT"⟩) zeroToken ([] : FS)
      ⟨[fileA], some "abc"⟩ (by decide)).2.1⟩

/-- C5: for a dpi field parsing to a value in [72, 2400], every engine
invocation of the request carries both `-dDEVICEXRESOLUTION` and
`-dDEVICEYRESOLUTION` arguments equal to exactly that DPI. -/
theorem convert_resolution_args (oracle : Nat → AttemptOracle)
    (token : Nat → List (Fin 256)) (fs : FS) (req : ReqModel) (n : Int)
    (hparse : parseIntJS req.dpi = some n) (h72 : 72 ≤ n) (h2400 : n ≤ 2400) :
    ∀ inv ∈ (convertHandler oracle token fs req).invocations,
      ("-dDEVICEXRESOLUTION=" ++ toString n) ∈ gsCommand inv ∧
      ("-dDEVICEYRESOLUTION=" ++ toString n) ∈ gsCommand inv := by
  have hn0 : n ≠ 0 := by omega
  have heff : effectiveDPI req.dpi = n := by simp [effectiveDPI, hparse, hn0]
  intro inv hinv
  rcases convertHandler_invocations_cases oracle token fs req with h | h
  · rw [h] at hinv
    simp at hinv
  · rw [h] at hinv
    have hd := convertLoop_invocations_dpi oracle token (effectiveDPI req.dpi)
      req.files 0 fs inv hinv
    rw [heff] at hd
    constructor <;> (rw [← hd]; simp [gsCommand])

/-- C5 witness: dpi `"150"` and a one-file success run; the single
invocation carries both resolution arguments `150`. -/
theorem convert_resolution_args_witness :
    parseIntJS (some "150") = some 150 ∧ (72 : Int) ≤ 150 ∧ (150 : Int) ≤ 2400 ∧
    (∀ inv ∈ (convertHandler (fun _ => ⟨true, some "OUT"⟩) zeroToken
        ([(fileA.path, "A")] : FS) ⟨[fileA], some "150"⟩).invocations,
      ("-dDEVICEXRESOLUTION=" ++ toString (150 : Int)) ∈ gsCommand inv ∧
      ("-dDEVICEYRESOLUTION=" ++ toString (150 : Int)) ∈ gsCommand inv) :=
  ⟨by decide, by decide, by decide,
    convert_resolution_args (fun _ => ⟨true, some "OUT"⟩) zeroToken
      ([(fileA.path, "A")] : FS) ⟨[fileA], some "150"⟩ 150 (by decide) (by decide)
      (by decide)⟩

/-- C6: the override directive is a pure function of the target DPI alone —
by construction `psContent` is a function of `targetDPI` only, and the
decomposition conjunct shows the whole text is three fixed segments around
the three interpolated resolution values, so any two generations with the
same target DPI are identical and every other field is input-independent.
For every `targetDPI` the text disables downsampling for the color, gray and
mono image classes, pins their `...ImageDownsampleType` to `/None`, sets the
three image resolutions to exactly the target DPI, selects `FlateEncode` for
color/gray and `CCITTFaxEncode` for mono, and carries only the fixed
metadata fields (`Title`, `Author`, `Creator`, `Producer`, `ModDate`,
`CreationDate`, `Subject`, `Keywords`). -/
theorem psContent_spec (d : Int) :
    psContent d = psPart0 ++ toString d ++ psPart1 ++ toString d ++ psPart2
        ++ toString d ++ psPart3 ∧
    occursIn "/ColorImageDownsampleType /None" (psContent d) ∧
    occursIn "/GrayImageDownsampleType /None" (psContent d) ∧
    occursIn "/MonoImageDownsampleType /None" (psContent d) ∧
    occursIn "/DownsampleColorImages false" (psContent d) ∧
    occursIn "/DownsampleGrayImages false" (psContent d) ∧
    occursIn "/DownsampleMonoImages false" (psContent d) ∧
    occursIn ("/ColorImageResolution " ++ toString d) (psContent d) ∧
    occursIn ("/GrayImageResolution " ++ toString d) (psContent d) ∧
    occursIn ("/MonoImageResolution " ++ toString d) (psContent d) ∧
    occursIn "/ColorImageFilter /FlateEncode" (psContent d) ∧
    occursIn "/GrayImageFilter /FlateEncode" (psContent d) ∧
    occursIn "/MonoImageFilter /CCITTFaxEncode" (psContent d) ∧
    occursIn "/Title (Set DPI)" (psContent d) ∧
    occursIn "/Author (PDF Processor)" (psContent d) ∧
    occursIn "/Creator (PDF DPI Setter)" (psContent d) ∧
    occursIn "/Producer (Ghostscript)" (psContent d) ∧
    occursIn "/ModDate (D:20240214)" (psContent d) ∧
    occursIn "/CreationDate (D:20240214)" (psContent d) ∧
    occursIn "/Subject (DPI Modified PDF)" (psContent d) ∧
    occursIn "/Keywords (DPI, PDF)" (psContent d) :=
  ⟨rfl,
    occursIn_psPart0_lift _ occursIn_part0_color_downsample_type d,
    occursIn_psPart0_lift _ occursIn_part0_gray_downsample_type d,
    occursIn_psPart0_lift _ occursIn_part0_mono_downsample_type d,
    occursIn_psPart3_lift _ occursIn_part3_downsample_color d,
    occursIn_psPart3_lift _ occursIn_part3_downsample_gray d,
    occursIn_psPart3_lift _ occursIn_part3_downsample_mono d,
    occursIn_res_color d,
    occursIn_res_gray d,
    occursIn_res_mono d,
    occursIn_psPart3_lift _ occursIn_part3_color_filter d,
    occursIn_psPart3_lift _ occursIn_part3_gray_filter d,
    occursIn_psPart3_lift _ occursIn_part3_mono_filter d,
    occursIn_psPart0_lift _ occursIn_part0_title d,
    occursIn_psPart0_lift _ occursIn_part0_author d,
    occursIn_psPart0_lift _ occursIn_part0_creator d,
    occursIn_psPart0_lift _ occursIn_part0_producer d,
    occursIn_psPart0_lift _ occursIn_part0_moddate d,
    occursIn_psPart0_lift _ occursIn_part0_creationdate d,
    occursIn_psPart0_lift _ occursIn_part0_subject d,
    occursIn_psPart0_lift _ occursIn_part0_keywords d⟩

/-- C7: every directive write of any `/convert` request targets the single
fixed path `uploads/setdpi.ps` — the path does not depend on the request,
the oracle outcomes, or the random token stream, so any two conversion
attempts process-wide use the same directive file. -/
theorem directive_fixed_path (oracle : Nat → AttemptOracle)
    (token : Nat → List (Fin 256)) (fs : FS) (req : ReqModel) :
    (∀ p ∈ (convertHandler oracle token fs req).directiveWrites,
      p = pathJoin "uploads" "setdpi.ps") ∧
    (∀ (oracle2 : Nat → AttemptOracle) (token2 : Nat → List (Fin 256))
        (fs2 : FS) (req2 : ReqModel),
      ∀ p ∈ (convertHandler oracle token fs req).directiveWrites,
      ∀ q ∈ (convertHandler oracle2 token2 fs2 req2).directiveWrites, p = q) := by
  have main : ∀ (o : Nat → AttemptOracle) (t : Nat → List (Fin 256)) (g : FS)
      (r : ReqModel), ∀ p ∈ (convertHandler o t g r).directiveWrites,
        p = psFilePath := by
    intro o t g r p hp
    rcases convertHandler_directiveWrites_cases o t g r with h | h
    · rw [h] at hp
      simp at hp
    · rw [h] at hp
      exact convertLoop_directiveWrites o t _ r.files 0 g p hp
  exact ⟨fun p hp => main _ _ _ _ p hp,
    fun o2 t2 g2 r2 p hp q hq => by
      rw [main _ _ _ _ p hp, main _ _ _ _ q hq]⟩

/-- C7 witness: a concrete run writes the directive exactly once, at the
fixed path, even though its output token is random. -/
theorem directive_fixed_path_witness :
    psFilePath ∈ (convertHandler (fun _ => ⟨true, some "OUT"⟩) zeroToken
      ([(fileA.path, "A")] : FS) ⟨[fileA], some "300"⟩).directiveWrites ∧
    psFilePath = pathJoin "uploads" "setdpi.ps" :=
  ⟨by decide,
    (directive_fixed_path (fun _ => ⟨true, some "OUT"⟩) zeroToken
      ([(fileA.path, "A")] : FS) ⟨[fileA], some "300"⟩).1 psFilePath (by decide)⟩

/-- C8: round-trip.  After a fully successful `/convert` request, the 200
response lists one name per input, every listed name is the hex-token name
drawn for some input index `j`, and `GET /output/:filename` on that name
returns exactly the bytes the engine wrote for that token; a name whose
output-store path was never written (neither before the request nor by one
of its tokens) yields the 404 `File not found` response. -/
theorem output_roundtrip (oracle : Nat → AttemptOracle)
    (token : Nat → List (Fin 256)) (fs : FS) (files : List UploadedFile)
    (dpiField : Option String) (bs : Nat → String)
    (htok : ∀ i j, token i = token j → i = j)
    (hpaths : ∀ f ∈ files, f.path.data.head? = some 'u')
    (hne : files ≠ [])
    (hdpi : ¬(effectiveDPI dpiField < 72 ∨ effectiveDPI dpiField > 2400))
    (hall : ∀ j, j < files.length → oracle j = ⟨true, some (bs j)⟩) :
    (∃ rs, (convertHandler oracle token fs ⟨files, dpiField⟩).response =
        .ok200 "Files processed successfully" rs ∧ rs.length = files.length ∧
        (∀ r ∈ rs, ∃ j, j < files.length ∧ r.name = outputNameOf token j)) ∧
    (∀ j, j < files.length →
      outputHandler (convertHandler oracle token fs ⟨files, dpiField⟩).fs
        (outputNameOf token j) = .download (bs j)) ∧
    (∀ name, fsLookup fs (pathJoin "output" name) = none →
      (∀ j, j < files.length → name ≠ outputNameOf token j) →
      outputHandler (convertHandler oracle token fs ⟨files, dpiField⟩).fs name =
        .notFound "File not found") := by
  have hisEmpty : files.isEmpty = false := by
    cases files with
    | nil => exact absurd rfl hne
    | cons a l => rfl
  obtain ⟨hfs, hinv, hdw, hresp⟩ := convertHandler_run oracle token fs
    ⟨files, dpiField⟩ hisEmpty hdpi
  have hall0 : ∀ j, j < files.length → oracle (0 + j) =
      ⟨true, some (bs (0 + j))⟩ := by
    intro j hj
    simpa using hall j hj
  obtain ⟨rs, hrs, hlen⟩ := convertLoop_success oracle token (effectiveDPI dpiField)
    bs files 0 fs hall0
  refine ⟨⟨rs, ?_, hlen, ?_⟩, ?_, ?_⟩
  · rw [hresp, hrs]
  · intro r hr
    obtain ⟨j, _, hj1, hname, _⟩ := convertLoop_ok_mem oracle token
      (effectiveDPI dpiField) files 0 fs rs hrs r hr
    exact ⟨j, by simpa using hj1, hname⟩
  · intro j hj
    have hout := convertLoop_success_outputs oracle token (effectiveDPI dpiField)
      bs htok files 0 fs hall0 hpaths j hj
    rw [show (0 : Nat) + j = j by omega] at hout
    rw [hfs]
    unfold outputHandler
    rw [show pathJoin "output" (outputNameOf token j) = outputPathOf token j from rfl,
      hout]
  · intro name hfs0 hnot
    rw [hfs]
    unfold outputHandler
    have hmono := convertLoop_none_mono oracle token (effectiveDPI dpiField)
      (pathJoin "output" name)
      (ne_of_head (pathJoin_output_head _) psFilePath_head (by decide))
      files 0 fs
      (fun j _ hj1 heq =>
        hnot j (by simpa using hj1) (pathJoin_output_inj heq))
      hfs0
    rw [hmono]

/-- C8 witness: one file, engine bytes `"OUT"`; retrieving the drawn name
downloads `"OUT"`, and an unwritten name answers 404. -/
theorem output_roundtrip_witness :
    (∀ f ∈ ([fileA] : List UploadedFile), f.path.data.head? = some 'u') ∧
    ([fileA] : List UploadedFile) ≠ [] ∧
    ¬(effectiveDPI (some "300") < 72 ∨ effectiveDPI (some "300") > 2400) ∧
    (∀ j, j < ([fileA] : List UploadedFile).length →
      outputHandler (convertHandler (fun _ => ⟨true, some "OUT"⟩) lenToken
        ([(fileA.path, "A")] : FS) ⟨[fileA], some "300"⟩).fs
        (outputNameOf lenToken j) = .download "OUT") :=
  ⟨by decide, by decide, by decide,
    (output_roundtrip (fun _ => ⟨true, some "OUT"⟩) lenToken
      ([(fileA.path, "A")] : FS) [fileA] (some "300") (fun _ => "OUT")
      lenToken_inj (by decide) (by decide) (by decide)
      (fun j _ => rfl)).2.1⟩

/-- C9: if any part of the multipart batch declares a content type other
than `application/pdf`, the whole request fails with the filter's error
(the handler never runs): no engine invocation happens, nothing is ever
written under the output store, and every file staged by the request is one
whose declared type is `application/pdf` — the offending file is never
staged and never produces an output. -/
theorem nonpdf_rejected (oracle : Nat → AttemptOracle)
    (stageToken outToken : Nat → List (Fin 256)) (fs : FS)
    (incoming : List IncomingFile) (dpiField : Option String)
    (hbad : ∃ f ∈ incoming, f.mimetype ≠ "application/pdf") :
    (handleConvertRequest oracle stageToken outToken fs incoming dpiField).response =
      .uploadError "Only PDF files are allowed" ∧
    (handleConvertRequest oracle stageToken outToken fs incoming
      dpiField).invocations = [] ∧
    (∀ name, fsLookup (handleConvertRequest oracle stageToken outToken fs incoming
        dpiField).fs (pathJoin "output" name) = fsLookup fs (pathJoin "output" name)) ∧
    (∀ p, fsLookup (handleConvertRequest oracle stageToken outToken fs incoming
        dpiField).fs p ≠ fsLookup fs p →
      ∃ g ∈ incoming, g.mimetype = "application/pdf" ∧
        fsLookup (handleConvertRequest oracle stageToken outToken fs incoming
          dpiField).fs p = some g.content) := by
  have herr := intake_error_msg stageToken incoming 0 fs hbad
  have hwr := intake_writes stageToken incoming 0 fs
  rcases hint : intake stageToken incoming 0 fs with ⟨fs1, r⟩
  rw [hint] at herr hwr
  have hr : r = Except.error "Only PDF files are allowed" := herr
  subst hr
  simp only [handleConvertRequest, hint]
  refine ⟨trivial, trivial, ?_, ?_⟩
  · intro name
    by_cases hch : fsLookup fs1 (pathJoin "output" name) =
        fsLookup fs (pathJoin "output" name)
    · exact hch
    · obtain ⟨g, _, _, _, hhead⟩ := hwr (pathJoin "output" name) hch
      have ho := pathJoin_output_head name
      rw [ho] at hhead
      simp at hhead
  · intro p hp
    obtain ⟨g, hg, hgm, hgl, _⟩ := hwr p hp
    exact ⟨g, hg, hgm, hgl⟩

/-- C9 witness: a request with one `image/png` part is rejected, with no
invocation and no new output-store entry. -/
theorem nonpdf_rejected_witness :
    (∃ f ∈ ([⟨"x.png", "image/png", "PNG"⟩] : List IncomingFile),
      f.mimetype ≠ "application/pdf") ∧
    (handleConvertRequest (fun _ => ⟨true, some "OUT"⟩) zeroToken zeroToken ([] : FS)
      ([⟨"x.png", "image/png", "PNG"⟩] : List IncomingFile) (some "300")).response =
      .uploadError "Only PDF files are allowed" ∧
    (handleConvertRequest (fun _ => ⟨true, some "OUT"⟩) zeroToken zeroToken ([] : FS)
      ([⟨"x.png", "image/png", "PNG"⟩] : List IncomingFile)
      (some "300")).invocations = [] :=
  ⟨⟨⟨"x.png", "image/png", "PNG"⟩, by simp, by decide⟩,
    (nonpdf_rejected (fun _ => ⟨true, some "OUT"⟩) zeroToken zeroToken ([] : FS)
      ([⟨"x.png", "image/png", "PNG"⟩] : List IncomingFile) (some "300")
      ⟨⟨"x.png", "image/png", "PNG"⟩, by simp, by decide⟩).1,
    (nonpdf_rejected (fun _ => ⟨true, some "OUT"⟩) zeroToken zeroToken ([] : FS)
      ([⟨"x.png", "image/png", "PNG"⟩] : List IncomingFile) (some "300")
      ⟨⟨"x.png", "image/png", "PNG"⟩, by simp, by decide⟩).2.1⟩

/-- C10: every entry of a 200 `/convert` response has a `name` that is a
32-character lowercase-hex token followed by `.pdf` (the tokens being 16
random bytes hex-encoded), and a `url` that is exactly `"/output/"`
concatenated with that name, addressing the retrieval endpoint. -/
theorem response_name_format (oracle : Nat → AttemptOracle)
    (token : Nat → List (Fin 256)) (fs : FS) (req : ReqModel)
    (hlen : ∀ i, (token i).length = 16) :
    ∀ m rs, (convertHandler oracle token fs req).response = .ok200 m rs →
      ∀ r ∈ rs, ∃ t : String, r.name = t ++ ".pdf" ∧ t.length = 32 ∧
        (∀ c ∈ t.data, c ∈ hexChars) ∧ r.url = "/output/" ++ r.name := by
  intro m rs hok r hr
  have hL := convertHandler_ok_inv oracle token fs req m rs hok
  obtain ⟨j, _, _, hname, hurl, _⟩ := convertLoop_ok_mem oracle token
    (effectiveDPI req.dpi) req.files 0 fs rs hL r hr
  refine ⟨hexEncode (token j), ?_, ?_, ?_, ?_⟩
  · rw [hname]
    rfl
  · have h2 := hexEncodeList_length (token j)
    rw [hlen j] at h2
    simpa [hexEncode, String.length] using h2
  · intro c hc
    exact hexEncodeList_mem (token j) c hc
  · rw [hurl, hname]

/-- C10 witness: the single entry of a one-file success run has the
32-hex-digit name plus `.pdf` and the matching `/output/` url. -/
theorem response_name_format_witness :
    (∀ i, (zeroToken i).length = 16) ∧
    (convertHandler (fun _ => ⟨true, some "OUT"⟩) zeroToken
      ([(fileA.path, "A")] : FS) ⟨[fileA], some "300"⟩).response =
      .ok200 "Files processed successfully"
        [⟨"a.pdf", "00000000000000000000000000000000.pdf",
          "/output/00000000000000000000000000000000.pdf", 300⟩] ∧
    (∀ r ∈ [(⟨"a.pdf", "00000000000000000000000000000000.pdf",
          "/output/00000000000000000000000000000000.pdf", 300⟩ : ConversionResult)],
      ∃ t : String, r.name = t ++ ".pdf" ∧ t.length = 32 ∧
        (∀ c ∈ t.data, c ∈ hexChars) ∧ r.url = "/output/" ++ r.name) :=
  ⟨fun _ => rfl, by decide,
    response_name_format (fun _ => ⟨true, some "OUT"⟩) zeroToken
      ([(fileA.path, "A")] : FS) ⟨[fileA], some "300"⟩ (fun _ => rfl)
      "Files processed successfully"
      [⟨"a.pdf", "00000000000000000000000000000000.pdf",
        "/output/00000000000000000000000000000000.pdf", 300⟩] (by decide)⟩
